import Mathlib

/-!
Shallow embedding of the rainfall advisory backend
(`app/backend.py`, `app/core/rules.py`, `app/core/uncertainty.py`,
`app/core/advisory.py`) together with theorems checking the
natural-language specification against the code.

Python floats are modelled as exact rationals (`ℚ`); transcendental
float expressions (the haversine distance, `np.std`'s square root)
are modelled over `ℝ`.  Python dictionaries with a fixed key set are
modelled as structures.
-/

namespace RainfallAdvisory

/-- The three rainfall categories produced by the classifier
(`categories = ['Deficit', 'Normal', 'Excess']` in `uncertainty.py`). -/
inductive Category
| Deficit
| Normal
| Excess
deriving DecidableEq, Repr

/-- A bilingual message body: a Python dict `{"en": ..., "kn": ...}`. -/
structure Bilingual where
  en : String
  kn : String
deriving DecidableEq, Repr

/-- A probability map over the three categories, in the dict insertion
order `Deficit, Normal, Excess` used by `predict`'s `confidence_dict`. -/
structure Probs where
  deficit : ℚ
  normal : ℚ
  excess : ℚ
deriving DecidableEq, Repr

/-- `confidences.get(ml_category, 0)`: all three keys are always present. -/
def Probs.get (p : Probs) : Category → ℚ
| Category.Deficit => p.deficit
| Category.Normal => p.normal
| Category.Excess => p.excess

/-- The alert record built by `generate_alert` /
the flash-flood override in `build_farmer_response`. -/
structure Alert where
  status : String
  severity : String
  type : String
  sms_text : Bilingual
  whatsapp_text : Bilingual
deriving DecidableEq, Repr

/-- `rules.py`: the `live_forecast_7day_mm > 100.0` branch. -/
def floodCriticalAlert : Alert :=
  { status := "OK", severity := "CRITICAL", type := "FLOOD",
    sms_text :=
      ⟨"CRITICAL: Heavy rain (>100mm) expected next 7 days. Flood risk high. Check drainage.",
       "ತುರ್ತು: ಮುಂದಿನ 7 ದಿನಗಳಲ್ಲಿ ಭಾರೀ ಮಳೆ (>100mm) ನಿರೀಕ್ಷಿಸಲಾಗಿದೆ. ಪ್ರವಾಹದ ಸಾಧ್ಯತೆಯಿದೆ. ಚರಂಡಿಗಳನ್ನು ಪರಿಶೀಲಿಸಿ."⟩,
    whatsapp_text :=
      ⟨"🚨 *FLOOD WARNING*\n\nHeavy rain (>100mm) predicted for next 7 days.\n\n*Action Required:*\n- Clear drainage channels\n- Delay fertilizer application\n- Secure equipment",
       "🚨 *ಪ್ರವಾಹ ಎಚ್ಚರಿಕೆ*\n\nಮುಂದಿನ 7 ದಿನಗಳಲ್ಲಿ ಭಾರೀ ಮಳೆ (>100mm) ನಿರೀಕ್ಷಿಸಲಾಗಿದೆ.\n\n*ತುರ್ತು ಕ್ರಮಗಳು:*\n- ಚರಂಡಿಗಳನ್ನು ಸ್ವಚ್ಛಗೊಳಿಸಿ\n- ರಸಗೊಬ್ಬರ ಹಾಕಬೇಡಿ\n- ಕೃಷಿ ಉಪಕರಣಗಳನ್ನು ಸುರಕ್ಷಿತವಾಗಿಡಿ"⟩ }

/-- `rules.py`: the `live_forecast_7day_mm > 60.0` branch. -/
def floodHighAlert : Alert :=
  { status := "OK", severity := "HIGH", type := "FLOOD",
    sms_text :=
      ⟨"WARNING: Heavy rain (~60mm+) expected. Soil saturation likely. Avoid spraying.",
       "ಎಚ್ಚರಿಕೆ: ಭಾರೀ ಮಳೆ (~60mm+) ನಿರೀಕ್ಷಿಸಲಾಗಿದೆ. ಮಣ್ಣು ತೇವವಾಗಿರುತ್ತದೆ. ಔಷಧಿ ಸಿಂಪಡಿಸಬೇಡಿ."⟩,
    whatsapp_text :=
      ⟨"🟠 *HEAVY RAIN ALERT*\n\nWet week ahead (>60mm predicted). Soil saturation likely.\n\n*Advisory:*\n- Avoid chemical spraying\n- Monitor field water levels",
       "🟠 *ಭಾರೀ ಮಳೆ ಮುನ್ಸೂಚನೆ*\n\nಮುಂದಿನ ವಾರ ಹೆಚ್ಚು ಮಳೆ (>60mm) ಇರಲಿದೆ.\n\n*ಸಲಹೆ:*\n- ರಾಸಾಯನ ಸಿಂಪಡಿಸಬೇಡಿ\n- ಹೊಲದಲ್ಲಿನ ನೀರಿನ ಮಟ್ಟವನ್ನು ಗಮನಿಸಿ"⟩ }

/-- `rules.py`: Deficit with `live_forecast_7day_mm < 5.0`. -/
def droughtHighAlert : Alert :=
  { status := "OK", severity := "HIGH", type := "DROUGHT",
    sms_text :=
      ⟨"ALERT: Dry spell continues. No rain in next 7 days. Start irrigation now.",
       "ಎಚ್ಚರಿಕೆ: ಮಳೆ ಇಲ್ಲ. ಮುಂದಿನ 7 ದಿನ ಒಣ ಹವೆ ಇರುತ್ತದೆ. ಕೂಡಲೇ ನೀರು ಹಾಯಿಸಿ."⟩,
    whatsapp_text :=
      ⟨"🔴 *IRRIGATION ALERT*\n\nDry spell confirmed. No significant rain forecast for next 7 days.\n\n*Action:*\n- Start irrigation immediately\n- Conserve soil moisture",
       "🔴 *ನೀರಾವರಿ ಎಚ್ಚರಿಕೆ*\n\nಮುಂದಿನ 7 ದಿನ ಮಳೆ ಇಲ್ಲದಿರುವುದರಿಂದ ಒಣ ಹವೆ ಮುಂದುವರಿಯಲಿದೆ.\n\n*ಕ್ರಮಗಳು:*\n- ತಕ್ಷಣ ನೀರು ಹಾಯಿಸಿ\n- ಮಣ್ಣಿನ ತೇವಾಂಶ ಕಾಪಾಡಿಕೊಳ್ಳಿ"⟩ }

/-- `rules.py`: Deficit with `live_forecast_7day_mm < 15.0`. -/
def droughtMediumAlert : Alert :=
  { status := "OK", severity := "MEDIUM", type := "DROUGHT",
    sms_text :=
      ⟨"ADVISORY: Moisture stress likely. Light rain only. Monitor soil.",
       "ಸಲಹೆ: ನೀರಿನ ಕೊರತೆ ಸಾಧ್ಯತೆ. ಸಾಧಾರಣ ಮಳೆ ಮಾತ್ರ. ಮಣ್ಣಿನ ತೇವಾಂಶ ಗಮನಿಸಿ."⟩,
    whatsapp_text :=
      ⟨"🟠 *MOISTURE STRESS ADVISORY*\n\nDeficit rainfall expected. Only light rain (<15mm) forecast.\n\n*Action:*\n- Monitor soil moisture\n- Prepare to irrigate if rain misses",
       "🟠 *ನೀರಿನ ಕೊರತೆ ಸಾಧ್ಯತೆ*\n\nಕಡಿಮೆ ಮಳೆ (<15mm) ನಿರೀಕ್ಷಿಸಲಾಗಿದೆ.\n\n*ಕ್ರಮಗಳು:*\n- ಮಣ್ಣಿನ ತೇವಾಂಶ ಪರೀಕ್ಷಿಸಿ\n- ಮಳೆ ಬಾರದಿದ್ದರೆ ನೀರು ಹಾಯಿಸಲು ಸಿದ್ಧರಾಗಿರಿ"⟩ }

/-- `rules.py`: Deficit with relief rain (`live_forecast_7day_mm ≥ 15.0`). -/
def droughtReliefAlert : Alert :=
  { status := "OK", severity := "LOW", type := "DROUGHT_RELIEF",
    sms_text :=
      ⟨"UPDATE: Relief rain expected (>15mm) this week. Delay irrigation.",
       "ಮಾಹಿತಿ: ಈ ವಾರ ಉತ್ತಮ ಮಳೆ (>15mm) ನಿರೀಕ್ಷೆಯಿದೆ. ನೀರು ಹಾಯಿಸುವುದನ್ನು ತಡೆಹಿಡಿಯಿರಿ."⟩,
    whatsapp_text :=
      ⟨"🟢 *RELIEF RAIN EXPECTED*\n\nDespite dry trends, rain (>15mm) is forecast for this week.\n\n*Action:*\n- Delay irrigation 2-3 days\n- Store rainwater",
       "🟢 *ಮಳೆ ನಿರೀಕ್ಷೆ*\n\nಭರವಸೆಯ ಮಳೆ (>15mm) ಈ ವಾರ ಬರಲಿದೆ.\n\n*ಕ್ರಮಗಳು:*\n- 2-3 ದಿನ ನೀರು ಹಾಯಿಸಬೇಡಿ\n- ಮಳೆ ನೀರನ್ನು ಸಂಗ್ರಹಿಸಿ"⟩ }

/-- `rules.py`: Excess with `live_forecast_7day_mm ≤ 60.0` (false-alarm check). -/
def wetNormalAlert : Alert :=
  { status := "OK", severity := "LOW", type := "WET_NORMAL",
    sms_text :=
      ⟨"STATUS: Moderate rains expected. Soil moisture healthy.",
       "ಸ್ಥಿತಿ: ಸಾಧಾರಣ ಮಳೆ ನಿರೀಕ್ಷೆ. ಮಣ್ಣಿನ ತೇವಾಂಶ ಉತ್ತಮವಾಗಿದೆ."⟩,
    whatsapp_text :=
      ⟨"🟢 *GOOD RAINFALL*\n\nConsistent rains expected. Soil moisture is healthy.\n\n*Action:*\n- Continue normal operations",
       "🟢 *ಉತ್ತಮ ಮಳೆ*\n\nಉತ್ತಮ ಮಳೆ ಸಾಧಾರಣವಾಗಿ ಬರಲಿದೆ. ಮಣ್ಣಿನ ತೇವಾಂಶ ಚೆನ್ನಾಗಿದೆ.\n\n*ಕ್ರಮಗಳು:*\n- ಸಾಧಾರಣ ಕೃಷಿ ಕೆಲಸ ಮುಂದುವರಿಸಿ"⟩ }

/-- `rules.py`: the default Normal branch. -/
def normalAlert : Alert :=
  { status := "OK", severity := "LOW", type := "NORMAL",
    sms_text :=
      ⟨"STATUS: Normal weather conditions. Proceed with standard care.",
       "ಸ್ಥಿತಿ: ಹವಾಮಾನ ಸಾಧಾರಣವಾಗಿದೆ. ನಿಮ್ಮ ಕೆಲಸ ಮುಂದುವರಿಸಿ."⟩,
    whatsapp_text :=
      ⟨"🟢 *NORMAL CONDITIONS*\n\nWeather patterns are normal.\n\n*Action:*\n- Proceed with standard crop maintenance",
       "🟢 *ಸಾಧಾರಣ ಹವಾಮಾನ*\n\nಹವಾಮಾನ ಮಾಮೂಲಿಯಾಗಿದೆ.\n\n*ಕ್ರಮಗಳು:*\n- ವಾಡಿಕೆಯಂತೆ ಬೆಳೆ ನಿರ್ವಹಣೆ ಮಾಡಿ"⟩ }

/-- `app/core/rules.py` `generate_alert(ml_category, ml_rainfall_mm,
live_forecast_7day_mm)`.  The second parameter is accepted but never
read by the body (the caller in `build_farmer_response` passes the
calibrated confidences dict there), so it is typed generically. -/
def generate_alert {α : Type} (ml_category : Category) (ml_rainfall_mm : α)
    (live_forecast_7day_mm : ℚ) : Alert :=
  if live_forecast_7day_mm > 100 then floodCriticalAlert
  else if live_forecast_7day_mm > 60 then floodHighAlert
  else if ml_category = Category.Deficit then
    (if live_forecast_7day_mm < 5 then droughtHighAlert
     else if live_forecast_7day_mm < 15 then droughtMediumAlert
     else droughtReliefAlert)
  else if ml_category = Category.Excess ∧ live_forecast_7day_mm ≤ 60 then wetNormalAlert
  else normalAlert

/-- `app/backend.py` `build_farmer_response`: the flash-flood override
alert assembled inline when `max_intensity_mm_per_hr > 15.0`. -/
def flashFloodAlert : Alert :=
  { status := "DANGER", severity := "CRITICAL", type := "FLASH_FLOOD",
    sms_text :=
      ⟨"CRITICAL: Flash Flood Risk (>15mm/hr). Drain fields immediately. Stop fertilizer application.",
       "ತುರ್ತು: ದಿಢೀರ್ ಪ್ರವಾಹ ಸಾಧ್ಯತೆ (>15mm/hr). ಕೂಡಲೇ ನೀರು ಹೊರಹಾಕಿ. ಗೊಬ್ಬರ ಹಾಕಬೇಡಿ."⟩,
    whatsapp_text :=
      ⟨"🚨 *CROP DANGER: FLASH FLOOD*\n\nIntense rainfall (>15mm/hr) detected.\n\n*Action Required:*\n- Open all drainage channels\n- Postpone fertilizer/chemical spraying\n- Protect harvested crops",
       "🚨 *ಬೆಳೆ ಅಪಾಯ: ದಿಢೀರ್ ಪ್ರವಾಹ*\n\nಭಾರೀ ಮಳೆ (>15mm/hr) ಪತ್ತೆಯಾಗಿದೆ.\n\n*ತುರ್ತು ಕ್ರಮಗಳು:*\n- ಎಲ್ಲಾ ಕಾಲುವೆಗಳನ್ನು ತೆರೆಯಿರಿ\n- ಗೊಬ್ಬರ/ಔಷಧಿ ಸಿಂಪಡಣೆ ಮುಂದೂಡಿ\n- ಕಟಾವು ಮಾಡಿದ ಬೆಳೆ ರಕ್ಷಿಸಿ"⟩ }

/-- The alert selection performed by `build_farmer_response`:
the local flash-flood intensity check followed by `generate_alert`. -/
def farmerAlert (ml_category : Category) (confidences : Probs)
    (forecast_7day_mm : ℚ) (max_intensity_mm_per_hr : ℚ) : Alert :=
  if max_intensity_mm_per_hr > 15 then flashFloodAlert
  else generate_alert ml_category confidences forecast_7day_mm

/-- Action lists built by `AdvisoryService.get_actions_for_*`
(`app/core/advisory.py`).  A key absent from the returned dict
(e.g. `immediate` for the normal branch) is modelled as `[]`. -/
structure Actions where
  immediate : List Bilingual
  this_week : List Bilingual
  prepare : List Bilingual
deriving DecidableEq, Repr

/-- `AdvisoryService.get_risk_level(category, confidence)`. -/
def get_risk_level (category : Category) (confidence : ℚ) :
    String × String × Bilingual :=
  match category with
  | Category.Excess =>
    if confidence ≥ 70 then
      ("HIGH", "🔴", ⟨"Heavy rain very likely", "ಭಾರೀ ಮಳೆ ನಿರೀಕ್ಷೆ"⟩)
    else if confidence ≥ 50 then
      ("MEDIUM", "🟡", ⟨"Heavy rain possible", "ಭಾರೀ ಮಳೆ ಸಾಧ್ಯತೆ"⟩)
    else
      ("LOW", "🟢", ⟨"Heavy rain unlikely", "ಭಾರೀ ಮಳೆ ಸಾಧ್ಯತೆ ಕಡಿಮೆ"⟩)
  | Category.Deficit =>
    if confidence ≥ 70 then
      ("HIGH", "🔴", ⟨"Drought conditions very likely", "ಬರಗಾಲದ ಸಾಧ್ಯತೆ ಹೆಚ್ಚು"⟩)
    else if confidence ≥ 50 then
      ("MEDIUM", "🟡", ⟨"Dry conditions possible", "ಒಣ ಹವೆ ಸಾಧ್ಯತೆ"⟩)
    else
      ("LOW", "🟢", ⟨"Normal conditions likely", "ಸಾಧಾರಣ ಸ್ಥಿತಿ ನಿರೀಕ್ಷೆ"⟩)
  | Category.Normal =>
    ("LOW", "🟢", ⟨"Normal conditions expected", "ಸಾಮಾನ್ಯ ಸ್ಥಿತಿ ನಿರೀಕ್ಷೆ"⟩)

/-- `AdvisoryService.get_actions_for_excess(confidence)`. -/
def get_actions_for_excess (confidence : ℚ) : Actions :=
  if confidence ≥ 60 then
    { immediate :=
        [⟨"⚠️ Postpone fertilizer application", "⚠️ ಗೊಬ್ಬರ ಹಾಕುವುದನ್ನು ಮುಂದೂಡಿ"⟩,
         ⟨"⚠️ Harvest ready crops within 2-3 days", "⚠️ 2-3 ದಿನಗಳಲ್ಲಿ ಬೆಳೆ ಕಟಾವು ಮಾಡಿ"⟩,
         ⟨"⚠️ Prepare drainage channels", "⚠️ ನೀರು ಹೋಗಲು ಕಾಲುವೆ ಸರಿಪಡಿಸಿ"⟩,
         ⟨"⚠️ Store harvested grain indoors", "⚠️ ಕಟಾವು ಮಾಡಿದ ಫಸಲನ್ನು ಒಳಗೆ ಇಡಿ"⟩],
      this_week :=
        [⟨"Check field drainage daily", "ಪ್ರತಿದಿನ ಕಾಲುವೆ ಪರೀಕ್ಷಿಸಿ"⟩,
         ⟨"Monitor crops for waterlogging", "ನೀರು ನಿಲ್ಲದಂತೆ ನೋಡಿಕೊಳ್ಳಿ"⟩,
         ⟨"Apply fungicide if moisture persists", "ತೇವಾಂಶ ಹೆಚ್ಚಿದ್ದರೆ ಶಿಲೀಂಧ್ರನಾಶಕ ಬಳಸಿ"⟩],
      prepare := [] }
  else
    { immediate := [], this_week := [],
      prepare :=
        [⟨"Monitor weather updates daily", "ದಿನವೂ ಹವಾಮಾನ ವರದಿ ಗಮನಿಸಿ"⟩,
         ⟨"Keep drainage tools ready", "ಕಾಲುವೆ ಸರಿಪಡಿಸಲು ಉಪಕರಣ ಸಿದ್ಧವಿಡಿ"⟩,
         ⟨"Plan to harvest ripe crops if rain increases", "ಮಳೆ ಹೆಚ್ಚಾದರೆ ಕಟಾವು ಮಾಡಲು ಯೋಜಿಸಿ"⟩] }

/-- `AdvisoryService.get_actions_for_deficit(confidence)`. -/
def get_actions_for_deficit (confidence : ℚ) : Actions :=
  if confidence ≥ 60 then
    { immediate :=
        [⟨"💧 Plan irrigation for next 7 days", "💧 ಮುಂದಿನ 7 ದಿನಗಳಿಗೆ ನೀರು ಹಾಯಿಸಲು ಯೋಜಿಸಿ"⟩,
         ⟨"💧 Mulch around plants to retain moisture", "💧 ತೇವಾಂಶ ಉಳಿಸಲು ಗಿಡಗಳ ಬುಡಕ್ಕೆ ಮಲ್ಚಿಂಗ್ ಮಾಡಿ"⟩,
         ⟨"💧 Reduce water-intensive activities", "💧 ಹೆಚ್ಚು ನೀರು ಬೇಕಾಗುವ ಕೆಲಸ ಕಡಿಮೆ ಮಾಡಿ"⟩,
         ⟨"💧 Check irrigation equipment", "💧 ಪಂಪ್ ಮತ್ತು ಪೈಪ್‌ಗಳನ್ನು ಪರೀಕ್ಷಿಸಿ"⟩],
      this_week :=
        [⟨"Irrigate 2-3 times this week", "ಈ ವಾರ 2-3 ಬಾರಿ ನೀರು ಹಾಯಿಸಿ"⟩,
         ⟨"Monitor soil moisture daily", "ದಿನದ ತೇವಾಂಶ ಗಮನಿಸಿ"⟩,
         ⟨"Avoid planting water-intensive crops", "ಹೆಚ್ಚು ನೀರು ಬೇಕಾಗುವ ಬೆಳೆ ಹಾಕಬೇಡಿ"⟩],
      prepare := [] }
  else
    { immediate := [], this_week := [],
      prepare :=
        [⟨"Prepare irrigation backup plan", "ಪರ್ಯಾಯ ನೀರಿನ ವ್ಯವಸ್ಥೆ ಮಾಡಿ"⟩,
         ⟨"Monitor soil moisture", "ಮಣ್ಣಿನ ತೇವಾಂಶ ಗಮನಿಸಿ"⟩,
         ⟨"Wait before adding new crops", "ಹೊಸ ಬೆಳೆ ಹಾಕುವ ಮೊದಲು ಕಾಯಿರಿ"⟩] }

/-- `AdvisoryService.get_actions_for_normal()`. -/
def get_actions_for_normal : Actions :=
  { immediate := [], prepare := [],
    this_week :=
      [⟨"✅ Proceed with normal farming activities", "✅ ಎಂದಿನಂತೆ ಕೃಷಿ ಕೆಲಸ ಮುಂದುವರಿಸಿ"⟩,
       ⟨"✅ Good time for fertilizer application", "✅ ಗೊಬ್ಬರ ಹಾಕಲು ಇದು ಸೂಕ್ತ ಸಮಯ"⟩,
       ⟨"✅ Can plant new crops", "✅ ಹೊಸ ಬೆಳೆಗಳನ್ನು ನಾಟಿ ಮಾಡಬಹುದು"⟩,
       ⟨"✅ Regular irrigation schedule", "✅ ವಾಡಿಕೆಯಂತೆ ನೀರು ಹಾಯಿಸಿ"⟩] }

/-- Python `int(x)`: truncation toward zero. -/
def pyInt (x : ℚ) : ℤ :=
  if 0 ≤ x then ⌊x⌋ else ⌈x⌉

/-- Round to nearest integer, ties to even (Python `round` semantics,
idealized over ℚ). -/
def roundHalfEven (x : ℚ) : ℤ :=
  let f := ⌊x⌋
  let r := x - f
  if r < 1/2 then f
  else if 1/2 < r then f + 1
  else if f % 2 = 0 then f else f + 1

/-- Python `round(x, 1)`. -/
def pyRound1 (x : ℚ) : ℚ :=
  (roundHalfEven (x * 10) : ℚ) / 10

/-- A calendar date (pandas timestamp at day granularity).
Chronological order is lexicographic on (year, month, day). -/
structure Date where
  year : ℤ
  month : ℕ
  day : ℕ
deriving DecidableEq, Repr

/-- Strict chronological order on dates. -/
def Date.ltb (a b : Date) : Bool :=
  if a.year ≠ b.year then decide (a.year < b.year)
  else if a.month ≠ b.month then decide (a.month < b.month)
  else decide (a.day < b.day)

/-- Non-strict chronological order on dates. -/
def Date.leb (a b : Date) : Bool :=
  Date.ltb a b || decide (a = b)

/-- A row of the historical rainfall table (`taluk, date, rainfall`). -/
structure RainRecord where
  taluk : String
  date : Date
  rainfall : ℚ
deriving DecidableEq, Repr

instance : Inhabited RainRecord := ⟨⟨"", ⟨0, 0, 0⟩, 0⟩⟩

/-- A row of the weather-drivers table. -/
structure WeatherRecord where
  taluk : String
  date : Date
  temp : ℚ
  humidity : ℚ
  wind : ℚ
  pressure : ℚ
deriving DecidableEq, Repr

instance : Inhabited WeatherRecord := ⟨⟨"", ⟨0, 0, 0⟩, 0, 0, 0, 0⟩⟩

/-- Row mask used by `_get_rainfall_data`:
same taluk and date strictly before the reference date. -/
def rainRowPred (taluk : String) (ref_dt : Date) (r : RainRecord) : Bool :=
  r.taluk == taluk && Date.ltb r.date ref_dt

/-- Row mask used by `_get_weather_data`:
same taluk and date at or before the reference date. -/
def weatherRowPred (taluk : String) (ref_dt : Date) (w : WeatherRecord) : Bool :=
  w.taluk == taluk && Date.leb w.date ref_dt

/-- Row mask for the historical same-month rows
(`month == ref_dt.month` and `year < ref_dt.year`, same taluk). -/
def histMonthPred (taluk : String) (ref_dt : Date) (r : RainRecord) : Bool :=
  r.taluk == taluk && r.date.month == ref_dt.month && decide (r.date.year < ref_dt.year)

/-- `sort_values('date')`: pandas uses a stable sort. -/
def sortRainByDate (l : List RainRecord) : List RainRecord :=
  List.insertionSort (fun a b => Date.leb a.date b.date = true) l

/-- `sort_values('date')` for weather rows. -/
def sortWeatherByDate (l : List WeatherRecord) : List WeatherRecord :=
  List.insertionSort (fun a b => Date.leb a.date b.date = true) l

/-- `FeatureEngineer._get_rainfall_data` (CSV branch). -/
def _get_rainfall_data (rainfall_df : List RainRecord) (taluk : String)
    (ref_dt : Date) : List RainRecord :=
  sortRainByDate (rainfall_df.filter (rainRowPred taluk ref_dt))

/-- `FeatureEngineer._get_weather_data` (CSV branch). -/
def _get_weather_data (weather_df : List WeatherRecord) (taluk : String)
    (ref_dt : Date) : List WeatherRecord :=
  sortWeatherByDate (weather_df.filter (weatherRowPred taluk ref_dt))

/-- The 12-feature vector built by `compute_features`,
fields in the dict construction order (which matches the schema). -/
structure Features where
  rain_lag_7 : ℚ
  rain_lag_30 : ℚ
  rolling_30_rain : ℚ
  rolling_60_rain : ℚ
  rolling_90_rain : ℚ
  dry_days_count : ℕ
  rain_deficit : ℚ
  temp : ℚ
  humidity : ℚ
  wind : ℚ
  pressure : ℚ
  month : ℕ
deriving DecidableEq, Repr

/-- Failures of `compute_features`: `InvalidDateError` and
`InsufficientDataError`.  The `ValueError` paths (schema mismatch,
NaN/Inf value) cannot fire in this model: the field set is fixed by
construction and `ℚ` has no non-finite values. -/
inductive FeatureError
| invalidDate (msg : String)
| insufficientData (msg : String)
deriving DecidableEq, Repr

/-- `df.tail(n)`: the last `n` rows (all rows when fewer). -/
def tailN {α : Type} (n : ℕ) (l : List α) : List α :=
  l.drop (l.length - n)

/-- `df['rainfall'].sum()`. -/
def rainSum (l : List RainRecord) : ℚ :=
  (l.map (fun r => r.rainfall)).sum

/-- `FeatureEngineer.compute_features` (CSV branch).  The reference
date arrives pre-parsed; `maxDate`/`minDate` stand for the
clock-derived bounds `today + 30 days` / `today - 3650 days`. -/
def compute_features (rainfall_df : List RainRecord)
    (weather_df : List WeatherRecord) (minDate maxDate : Date)
    (taluk : String) (ref_dt : Date) : Except FeatureError Features :=
  if Date.ltb maxDate ref_dt then
    Except.error (FeatureError.invalidDate "Date too far in future (max 30 days ahead)")
  else if Date.ltb ref_dt minDate then
    Except.error (FeatureError.invalidDate "Date too far in past (max 10 years back)")
  else
    let rain_data := _get_rainfall_data rainfall_df taluk ref_dt
    if rain_data.length < 30 then
      Except.error (FeatureError.insufficientData
        ("Not enough historical data for " ++ taluk ++ ". Need at least 30 days of past data."))
    else
      let last_30_days := tailN 30 rain_data
      -- `last_30_days.iloc[-7]` / `last_30_days.iloc[0]`
      let rain_lag_7 := (last_30_days.getD (last_30_days.length - 7) default).rainfall
      let rain_lag_30 := (last_30_days.getD 0 default).rainfall
      let rolling_30_rain := rainSum last_30_days
      let rolling_60_rain :=
        if rain_data.length ≥ 60 then rainSum (tailN 60 rain_data) else rainSum rain_data
      let rolling_90_rain :=
        if rain_data.length ≥ 90 then rainSum (tailN 90 rain_data) else rainSum rain_data
      let dry_days_count := (last_30_days.filter (fun r => decide (r.rainfall < 2))).length
      let hist_same_month := rainfall_df.filter (histMonthPred taluk ref_dt)
      let avg_monthly : ℚ :=
        if hist_same_month.length > 0 then
          -- groupby year, per-year sums, then the mean over the years
          let years := (hist_same_month.map (fun r => r.date.year)).dedup
          let yearly := years.map (fun y =>
            rainSum (hist_same_month.filter (fun r => decide (r.date.year = y))))
          yearly.sum / (yearly.length : ℚ)
        else 0
      let rain_deficit := rolling_30_rain - (if avg_monthly = 0 then 0 else avg_monthly)
      let weather_data := _get_weather_data weather_df taluk ref_dt
      if weather_data.length = 0 then
        Except.error (FeatureError.insufficientData
          ("No weather data available for " ++ taluk))
      else
        let latest_weather := weather_data.getLastD default
        Except.ok
          { rain_lag_7 := rain_lag_7
            rain_lag_30 := rain_lag_30
            rolling_30_rain := rolling_30_rain
            rolling_60_rain := rolling_60_rain
            rolling_90_rain := rolling_90_rain
            dry_days_count := dry_days_count
            rain_deficit := rain_deficit
            temp := latest_weather.temp
            humidity := latest_weather.humidity
            wind := latest_weather.wind
            pressure := latest_weather.pressure
            month := ref_dt.month }

/-- A fitted estimator: `predict_proba` on a feature list yields the
class probabilities in the fixed order Deficit, Normal, Excess. -/
structure FittedModel where
  predict_proba : List ℚ → Fin 3 → ℚ

instance : Inhabited FittedModel := ⟨⟨fun _ _ => 0⟩⟩

/-- `UncertaintyQuantifier`'s loaded state: the district model plus the
per-taluk models dict (`None` and `{}` are both falsy in the guard, so
both are modelled as `[]`). -/
structure UncertaintyQuantifier where
  district_model : FittedModel
  taluk_models : List (String × FittedModel)

/-- `categories = ['Deficit', 'Normal', 'Excess']` indexing. -/
def catOfIdx : Fin 3 → Category
| 0 => Category.Deficit
| 1 => Category.Normal
| 2 => Category.Excess

/-- The Python class-label string of a category. -/
def Category.pyName : Category → String
| Category.Deficit => "Deficit"
| Category.Normal => "Normal"
| Category.Excess => "Excess"

/-- `np.argmax` over three values: the first index attaining the
maximum. -/
def argmax3 (m : Fin 3 → ℚ) : Fin 3 :=
  if m 0 ≥ m 1 ∧ m 0 ≥ m 2 then 0
  else if m 1 ≥ m 2 then 1
  else 2

/-- The ensemble member list (`predictions`): the district model's
probabilities, plus the matching taluk model's when
`self.taluk_models and taluk and taluk in self.taluk_models`. -/
def ensembleMembers (uq : UncertaintyQuantifier) (features : List ℚ)
    (taluk : Option String) : List (Fin 3 → ℚ) :=
  let district_proba := uq.district_model.predict_proba features
  match taluk with
  | some t =>
    if uq.taluk_models.isEmpty = false ∧ t ≠ "" ∧ (uq.taluk_models.lookup t).isSome then
      [district_proba, ((uq.taluk_models.lookup t).getD default).predict_proba features]
    else [district_proba]
  | none => [district_proba]

/-- `np.mean(ensemble_preds, axis=0)`. -/
def ensembleMean (uq : UncertaintyQuantifier) (features : List ℚ)
    (taluk : Option String) (i : Fin 3) : ℚ :=
  let preds := ensembleMembers uq features taluk
  ((preds.map (fun p => p i)).sum) / (preds.length : ℚ)

/-- The per-class population variance of the ensemble
(the square of `np.std(ensemble_preds, axis=0)`). -/
def ensembleVar (uq : UncertaintyQuantifier) (features : List ℚ)
    (taluk : Option String) (i : Fin 3) : ℚ :=
  let preds := ensembleMembers uq features taluk
  ((preds.map (fun p => (p i - ensembleMean uq features taluk i) ^ 2)).sum) /
    (preds.length : ℚ)

/-- `np.std(ensemble_preds, axis=0)` (population standard deviation,
`ddof=0`). -/
noncomputable def ensembleStd (uq : UncertaintyQuantifier) (features : List ℚ)
    (taluk : Option String) (i : Fin 3) : ℝ :=
  Real.sqrt (ensembleVar uq features taluk i)

/-- `np.clip(x, 0, 1)`. -/
noncomputable def clip01 (x : ℝ) : ℝ :=
  min (max x 0) 1

/-- Mean std-dev on the 0-100 scale: `np.mean(std_probs) * 100`. -/
noncomputable def ensembleAvgStd (uq : UncertaintyQuantifier)
    (features : List ℚ) (taluk : Option String) : ℝ :=
  ((ensembleStd uq features taluk 0 + ensembleStd uq features taluk 1 +
    ensembleStd uq features taluk 2) / 3) * 100

/-- One entry of `prediction_intervals` (the formatted `range` string,
a float-display artifact, is not modelled). -/
structure IntervalEntry where
  mean : ℚ
  lower_90 : ℝ
  upper_90 : ℝ

/-- The `prediction_intervals` sub-dict. -/
structure PredictionIntervals where
  deficit : IntervalEntry
  normal : IntervalEntry
  excess : IntervalEntry

/-- The `uncertainty` sub-dict. -/
structure UncertaintyInfo where
  level : String
  description : String
  ensemble_std : ℝ
  model_agreement : ℝ

/-- The `prediction` sub-dict (probabilities on the 0-100 scale). -/
structure PredictionInfo where
  category : Category
  confidence : ℚ
  prob_deficit : ℚ
  prob_normal : ℚ
  prob_excess : ℚ

/-- The full return value of `get_prediction_with_uncertainty`. -/
structure UncertaintyResult where
  prediction : PredictionInfo
  uncertainty : UncertaintyInfo
  prediction_intervals : PredictionIntervals
  interpretation : String

/-- `UncertaintyQuantifier._get_interpretation`. -/
def get_interpretation (category : Category) (confidence : ℚ)
    (uncertainty : String) : String :=
  if uncertainty = "LOW" ∧ confidence > 70 then
    category.pyName ++ " very likely - all models agree"
  else if uncertainty = "LOW" then
    category.pyName ++ " likely - models agree"
  else if uncertainty = "MEDIUM" ∧ confidence > 60 then
    category.pyName ++ " probable - some model variation"
  else if uncertainty = "MEDIUM" then
    category.pyName ++ " possible - monitor updates"
  else
    "Uncertain - check forecast in 2-3 days"

open Classical in
/-- `UncertaintyQuantifier.get_prediction_with_uncertainty`. -/
noncomputable def get_prediction_with_uncertainty
    (uq : UncertaintyQuantifier) (features : List ℚ)
    (taluk : Option String) : UncertaintyResult :=
  let mean_probs := ensembleMean uq features taluk
  let std_probs := ensembleStd uq features taluk
  -- 90% confidence intervals (z=1.645)
  let lower_bound := fun i => clip01 ((mean_probs i : ℝ) - 1.645 * std_probs i)
  let upper_bound := fun i => clip01 ((mean_probs i : ℝ) + 1.645 * std_probs i)
  let category_idx := argmax3 mean_probs
  let predicted_category := catOfIdx category_idx
  let confidence := mean_probs category_idx * 100
  let avg_std := ensembleAvgStd uq features taluk
  let levelDesc :=
    if avg_std < 5 then ("LOW", "Models agree strongly")
    else if avg_std < 10 then ("MEDIUM", "Models mostly agree")
    else ("HIGH", "Models disagree - monitor forecast")
  { prediction :=
      { category := predicted_category
        confidence := confidence
        prob_deficit := mean_probs 0 * 100
        prob_normal := mean_probs 1 * 100
        prob_excess := mean_probs 2 * 100 }
    uncertainty :=
      { level := levelDesc.1
        description := levelDesc.2
        ensemble_std := avg_std
        model_agreement := 100 - avg_std }
    prediction_intervals :=
      { deficit := ⟨mean_probs 0 * 100, lower_bound 0 * 100, upper_bound 0 * 100⟩
        normal := ⟨mean_probs 1 * 100, lower_bound 1 * 100, upper_bound 1 * 100⟩
        excess := ⟨mean_probs 2 * 100, lower_bound 2 * 100, upper_bound 2 * 100⟩ }
    interpretation :=
      get_interpretation predicted_category confidence levelDesc.1 }

/-- The outcomes of `RainfallPredictor.predict`: a prediction triple,
or the `RuntimeError` raised by the catch-all handler. -/
inductive PredictOutcome
| ok (category : Category) (confidences : Probs)
    (uncertainty : Option UncertaintyResult)
| runtimeError (msg : String)

/-- The feature list in schema order (`[features_dict[f] for f in
feature_order]`); the schema order is the construction order. -/
def featuresList (f : Features) : List ℚ :=
  [f.rain_lag_7, f.rain_lag_30, f.rolling_30_rain, f.rolling_60_rain,
   f.rolling_90_rain, (f.dry_days_count : ℚ), f.rain_deficit, f.temp,
   f.humidity, f.wind, f.pressure, (f.month : ℚ)]

/-- `RainfallPredictor.predict`.  When the quantifier is available the
uncertainty result is converted back to 0-1 probabilities; otherwise
the fallback branch reads the unassigned names `category` and
`confidence_dict`, so the `NameError` is wrapped by the catch-all
`except` into a `RuntimeError`. -/
noncomputable def predict (quantifier : Option UncertaintyQuantifier)
    (features : Features) (taluk : Option String) : PredictOutcome :=
  match quantifier with
  | some q =>
    let result := get_prediction_with_uncertainty q (featuresList features) taluk
    PredictOutcome.ok result.prediction.category
      ⟨result.prediction.prob_deficit / 100,
       result.prediction.prob_normal / 100,
       result.prediction.prob_excess / 100⟩
      (some result)
  | none =>
    PredictOutcome.runtimeError "ML prediction error: name 'category' is not defined"

instance : Inhabited Category := ⟨Category.Normal⟩

/-- Steps (1)-(2) of `calibrate_prediction`: penalize Normal when its
raw probability exceeds 0.4, boost each extreme exceeding 0.25. -/
def scaledProbs (raw : Probs) : Probs :=
  { deficit := if raw.deficit > 0.25 then raw.deficit * 1.3 else raw.deficit
    normal := if raw.normal > 0.4 then raw.normal * 0.8 else raw.normal
    excess := if raw.excess > 0.25 then raw.excess * 1.3 else raw.excess }

/-- `total = sum(calibrated.values())` after the scaling steps. -/
def scaledTotal (raw : Probs) : ℚ :=
  (scaledProbs raw).deficit + (scaledProbs raw).normal + (scaledProbs raw).excess

/-- Steps (1)-(3) of `calibrate_prediction`: scale, then renormalize. -/
def calibrated_distribution (raw : Probs) : Probs :=
  let s := scaledProbs raw
  let total := s.deficit + s.normal + s.excess
  ⟨s.deficit / total, s.normal / total, s.excess / total⟩

/-- `RainfallPredictor.calibrate_prediction`.  Dict iteration order is
the insertion order Deficit, Normal, Excess; Python's stable
descending `sorted` is modelled by `insertionSort` with the
non-strict descending relation. -/
def calibrate_prediction (raw : Probs) : Category × Probs :=
  let calibrated := calibrated_distribution raw
  let sorted_cats : List (Category × ℚ) :=
    List.insertionSort (fun a b => b.2 ≤ a.2)
      [(Category.Deficit, calibrated.deficit),
       (Category.Normal, calibrated.normal),
       (Category.Excess, calibrated.excess)]
  let winner := (sorted_cats.getD 0 default).1
  let score := (sorted_cats.getD 0 default).2
  if winner = Category.Normal ∧ score < 0.5 then
    let second := sorted_cats.getD 1 default
    if (second.1 = Category.Deficit ∨ second.1 = Category.Excess) ∧
        score - second.2 < 0.1 then
      -- `calibrated[winner], calibrated['Normal'] = calibrated['Normal'], calibrated[winner]`
      match second.1 with
      | Category.Deficit =>
        (Category.Deficit, ⟨calibrated.normal, calibrated.deficit, calibrated.excess⟩)
      | Category.Excess =>
        (Category.Excess, ⟨calibrated.deficit, calibrated.excess, calibrated.normal⟩)
      | Category.Normal => (Category.Normal, calibrated)
    else (winner, calibrated)
  else (winner, calibrated)

/-- A region bounding box from `taluk_boundaries.json`. -/
structure Bbox where
  min_lat : ℚ
  min_lon : ℚ
  max_lat : ℚ
  max_lon : ℚ
deriving DecidableEq, Repr

/-- One taluk entry of the boundaries table. -/
structure Region where
  name : String
  bbox : Bbox
  center_lat : ℚ
  center_lon : ℚ
deriving DecidableEq, Repr

/-- Outcomes of `TalukMapper.get_taluk`: a `(taluk, confidence)` pair
or a `GPSOutOfBoundsError`. -/
inductive GeoResult
| ok (taluk : String) (confidence : String)
| outOfBounds (msg : String)
deriving DecidableEq, Repr

/-- Python `str.lower()` on a name, mapped over the character list. -/
def pyLower (s : String) : String :=
  ⟨s.data.map Char.toLower⟩

/-- The containment test of the bbox loop (all edges inclusive). -/
def bboxContains (r : Region) (lat lon : ℚ) : Bool :=
  decide (r.bbox.min_lat ≤ lat ∧ lat ≤ r.bbox.max_lat ∧
          r.bbox.min_lon ≤ lon ∧ lon ≤ r.bbox.max_lon)

/-- `math.radians`. -/
noncomputable def radians (x : ℝ) : ℝ :=
  x * (Real.pi / 180)

/-- `TalukMapper._haversine`: great-circle distance in km,
Earth radius 6371 km. -/
noncomputable def _haversine (lat1 lon1 lat2 lon2 : ℝ) : ℝ :=
  let R : ℝ := 6371
  let dlat := radians (lat2 - lat1)
  let dlon := radians (lon2 - lon1)
  let a := Real.sin (dlat / 2) ^ 2 +
    Real.cos (radians lat1) * Real.cos (radians lat2) * Real.sin (dlon / 2) ^ 2
  let c := 2 * Real.arcsin (Real.sqrt a)
  R * c

open Classical in
/-- One iteration of the nearest-taluk loop of `get_taluk`:
update the running minimum distance and nearest name. -/
noncomputable def nearestStep (dist : ℚ → ℚ → ℚ → ℚ → ℝ) (lat lon : ℚ)
    (acc : WithTop ℝ × Option String) (r : Region) : WithTop ℝ × Option String :=
  let d : WithTop ℝ := ((dist lat lon r.center_lat r.center_lon : ℝ) : WithTop ℝ)
  if d < acc.1 then (d, some (pyLower r.name)) else acc

/-- The nearest-taluk loop of `get_taluk`: running minimum distance
(started at `float('inf')`, modelled by `⊤`) and the name of the first
region attaining it. -/
noncomputable def scanNearest (dist : ℚ → ℚ → ℚ → ℚ → ℝ) (lat lon : ℚ)
    (boundaries : List Region) : WithTop ℝ × Option String :=
  boundaries.foldl (nearestStep dist lat lon) (⊤, none)

open Classical in
/-- `TalukMapper.get_taluk`, generic in the distance function. -/
noncomputable def get_taluk (dist : ℚ → ℚ → ℚ → ℚ → ℝ)
    (boundaries : List Region) (lat lon : ℚ) : GeoResult :=
  if ¬(-90 ≤ lat ∧ lat ≤ 90) ∨ ¬(-180 ≤ lon ∧ lon ≤ 180) then
    GeoResult.outOfBounds "Invalid GPS coordinates"
  else if ¬(12.5 ≤ lat ∧ lat ≤ 14.5) ∨ ¬(74.4 ≤ lon ∧ lon ≤ 75.3) then
    GeoResult.outOfBounds
      "Location outside Udupi district. This service only works for Udupi district farmers."
  else
    match boundaries.find? (fun r => bboxContains r lat lon) with
    | some r => GeoResult.ok (pyLower r.name) "high"
    | none =>
      let scan := scanNearest dist lat lon boundaries
      let min_dist := scan.1
      let nearest_taluk := scan.2
      if ((30 : ℝ) : WithTop ℝ) < min_dist then
        GeoResult.outOfBounds
          "Location too far from any known taluk. Please check your location or contact support."
      else
        GeoResult.ok (nearest_taluk.getD "")
          (if min_dist < ((15 : ℝ) : WithTop ℝ) then "medium" else "low")

/-- The haversine distance applied to rational GPS coordinates. -/
noncomputable def havDist (lat1 lon1 lat2 lon2 : ℚ) : ℝ :=
  _haversine lat1 lon1 lat2 lon2

/-- `TalukMapper.get_taluk` with the haversine distance of the code. -/
noncomputable def TalukMapper_get_taluk (boundaries : List Region)
    (lat lon : ℚ) : GeoResult :=
  get_taluk havDist boundaries lat lon

/-- The Kannada title lookup table in `build_farmer_response`
(`.get(alert['type'], alert['type'])`). -/
def knTitle (t : String) : String :=
  if t = "FLOOD" then "ಪ್ರವಾಹ"
  else if t = "DROUGHT" then "ಬರಗಾಲ"
  else if t = "NORMAL" then "ಸಾಧಾರಣ"
  else if t = "WET_NORMAL" then "ತೇವಭರಿತ"
  else if t = "DROUGHT_RELIEF" then "ಬರ ಪರಿಹಾರ"
  else if t = "FLASH_FLOOD" then "ದಿಢೀರ್ ಪ್ರವಾಹ"
  else if t = "HIGH_TEMPERATURE" then "ಹೆಚ್ಚಿನ ಉಷ್ಣಾಂಶ"
  else if t = "COLD_WEATHER" then "ಶೀತ ಹವಾಮಾನ"
  else if t = "HEAVY_RAIN" then "ಭಾರೀ ಮಳೆ"
  else if t = "MODERATE_RAIN" then "ಸಾಧಾರಣ ಮಳೆ"
  else t

/-- The `main_status` block of the response. -/
structure MainStatus where
  title : Bilingual
  message : Bilingual
  icon : String
  priority : String
  color : String

/-- The `rainfall.next_7_days` block. -/
structure Next7Days where
  amount_mm : ℚ
  max_intensity : ℚ
  category : Category

/-- The `rainfall.monthly_prediction` block. -/
structure MonthlyPrediction where
  category : Category
  confidence_percent : ℤ

/-- The `rainfall` block. -/
structure RainfallInfo where
  next_7_days : Next7Days
  monthly_prediction : MonthlyPrediction

/-- The `what_to_do` block. -/
structure WhatToDo where
  title : Bilingual
  whatsapp_summary : Bilingual
  actions : Actions
  priority_level : String

/-- The `technical_details` block. -/
structure TechnicalDetails where
  ml_prediction : Category
  confidence_scores : Probs
  model_version : String
  forecast_available : Bool
  uncertainty_analysis : Option UncertaintyInfo
  prediction_intervals : Option PredictionIntervals

/-- The `location` block. -/
structure LocationInfo where
  taluk : String
  district : String
  confidence : String

/-- The success response dict of `build_farmer_response`. -/
structure FarmerResponse where
  status : String
  main_status : MainStatus
  rainfall : RainfallInfo
  what_to_do : WhatToDo
  technical_details : TechnicalDetails
  location : LocationInfo

/-- `build_farmer_response`.  The risk level from `AdvisoryService`
is computed by the code but not referenced by the returned dict. -/
def build_farmer_response (ml_category : Category) (forecast_7day_mm : ℚ)
    (taluk : String) (geo_confidence : String) (confidences : Probs)
    (uncertainty_data : Option UncertaintyResult)
    (max_intensity_mm_per_hr : ℚ) : FarmerResponse :=
  let alert := farmerAlert ml_category confidences forecast_7day_mm max_intensity_mm_per_hr
  let _risk := get_risk_level ml_category (confidences.get ml_category * 100)
  let detailed_actions :=
    if ml_category = Category.Excess then
      get_actions_for_excess (confidences.excess * 100)
    else if ml_category = Category.Deficit then
      get_actions_for_deficit (confidences.deficit * 100)
    else get_actions_for_normal
  { status := "success"
    main_status :=
      { title := ⟨alert.type.replace "_" " ", knTitle alert.type⟩
        message := alert.sms_text
        icon := if alert.severity = "HIGH" ∨ alert.severity = "CRITICAL" then "🚨" else "🟢"
        priority := alert.severity
        color :=
          if alert.severity = "HIGH" ∨ alert.severity = "CRITICAL" then "#D32F2F"
          else "#4CAF50" }
    rainfall :=
      { next_7_days :=
          { amount_mm := if forecast_7day_mm = 0 then 0 else pyRound1 forecast_7day_mm
            max_intensity := pyRound1 max_intensity_mm_per_hr
            category := ml_category }
        monthly_prediction :=
          { category := ml_category
            confidence_percent := pyInt (confidences.get ml_category * 100) } }
    what_to_do :=
      { title := ⟨"Advisory", "ಸಲಹೆ"⟩
        whatsapp_summary := alert.whatsapp_text
        actions := detailed_actions
        priority_level := alert.severity }
    technical_details :=
      { ml_prediction := ml_category
        confidence_scores := confidences
        model_version := "v2_calibrated"
        -- `forecast_7day_mm is not None`: a float always reaches this point
        forecast_available := true
        uncertainty_analysis := uncertainty_data.map (fun u => u.uncertainty)
        prediction_intervals := uncertainty_data.map (fun u => u.prediction_intervals) }
    location := { taluk := taluk, district := "Udupi", confidence := geo_confidence } }

/-- One entry of the `error_messages` table in `build_error_response`. -/
structure ErrorInfo where
  title : Bilingual
  message : Bilingual
  icon : String
  action : Bilingual
deriving DecidableEq, Repr

/-- The `gps_error` table entry. -/
def gpsErrorInfo : ErrorInfo :=
  ⟨⟨"Location Problem", "ಸ್ಥಳ ಪತ್ತೆ ಸಮಸ್ಯೆ"⟩,
   ⟨"We cannot find your location. Please check if you are in Udupi district.",
    "ನಿಮ್ಮ ಸ್ಥಳವನ್ನು ಪತ್ತೆಹಚ್ಚಲು ಸಾಧ್ಯವಾಗುತ್ತಿಲ್ಲ. ನೀವು ಉಡುಪಿ ಜಿಲ್ಲೆಯಲ್ಲಿದ್ದೀರಾ ಎಂದು ಪರಿಶೀಲಿಸಿ."⟩,
   "📍",
   ⟨"Turn on GPS and try again", "GPS ಆನ್ ಮಾಡಿ ಮತ್ತೊಮ್ಮೆ ಪ್ರಯತ್ನಿಸಿ"⟩⟩

/-- The `data_error` table entry. -/
def dataErrorInfo : ErrorInfo :=
  ⟨⟨"Data Not Available", "ಮಾಹಿತಿ ಲಭ್ಯವಿಲ್ಲ"⟩,
   ⟨"We don't have enough rainfall data for your area yet.",
    "ನಿಮ್ಮ ಪ್ರದೇಶದ ಮಳೆಯ ಮಾಹಿತಿಯು ಸದ್ಯಕ್ಕೆ ನಮ್ಮ ಬಳಿ ಇಲ್ಲ."⟩,
   "📊",
   ⟨"Contact Support", "ಸಹಾಯವಾಣಿಗೆ ಕರೆ ಮಾಡಿ"⟩⟩

/-- The `date_error` table entry. -/
def dateErrorInfo : ErrorInfo :=
  ⟨⟨"Invalid Date", "ದಿನಾಂಕ ತಪ್ಪಾಗಿದೆ"⟩,
   ⟨"The date you selected is not valid.", "ನೀವು ಆಯ್ಕೆ ಮಾಡಿದ ದಿನಾಂಕ ಸರಿಯಿಲ್ಲ."⟩,
   "📅",
   ⟨"Select a valid date", "ಸರಿಯಾದ ದಿನಾಂಕವನ್ನು ಆರಿಸಿ"⟩⟩

/-- The `system_error` table entry. -/
def systemErrorInfo : ErrorInfo :=
  ⟨⟨"System Error", "ತಾಂತ್ರಿಕ ದೋಷ"⟩,
   ⟨"Something went wrong. Please try again later.",
    "ಏನೋ ತಪ್ಪಾಗಿದೆ. ದಯವಿಟ್ಟು ಸ್ವಲ್ಪ ಸಮಯದ ನಂತರ ಪ್ರಯತ್ನಿಸಿ."⟩,
   "⚙️",
   ⟨"Try again", "ಮತ್ತೊಮ್ಮೆ ಪ್ರಯತ್ನಿಸಿ"⟩⟩

/-- The error response dict of `build_error_response`. -/
structure ErrorResponse where
  status : String
  etype : String
  title : Bilingual
  message : Bilingual
  icon : String
  what_to_do : Bilingual
  technical_message : Option String
deriving DecidableEq, Repr

/-- `build_error_response(error_type, error_message, user_friendly)`. -/
def build_error_response (error_type : String) (error_message : String)
    (user_friendly : Bool) : ErrorResponse :=
  let error_info :=
    if error_type = "gps_error" then gpsErrorInfo
    else if error_type = "data_error" then dataErrorInfo
    else if error_type = "date_error" then dateErrorInfo
    else systemErrorInfo
  { status := "error"
    etype := error_type
    title := error_info.title
    message := error_info.message
    icon := error_info.icon
    what_to_do := error_info.action
    technical_message := if user_friendly then none else some error_message }

/-- Outcomes of `get_live_forecast_safe`: the body returns either
`(total_rain_7d, max_intensity, "success", None)` or
`(None, None, "error", message)`. -/
inductive WeatherResult
| success (rain7d : ℚ) (maxIntensity : ℚ)
| failure (message : String)

/-- The `data_sources` block added by `process_advisory_request`
(`last_updated`, a wall-clock timestamp, is not modelled). -/
structure DataSources where
  weather_forecast : String
  location_accuracy : String
deriving DecidableEq, Repr

/-- The two response shapes of `process_advisory_request`. -/
inductive ApiResponse
| err (resp : ErrorResponse)
| ok (resp : FarmerResponse) (sources : DataSources)

/-- `process_advisory_request`, parameterized by the outcomes of the
injected collaborators (`mapper.get_taluk`, `compute_features`,
`predictor.predict`, `get_live_forecast_safe`); the code catches each
step's errors and maps them to error responses, and replaces a failed
weather call by the conservative fallback (50 mm, 0 mm/hr). -/
def process_advisory_request (geo : GeoResult)
    (features : Except FeatureError Features)
    (prediction : PredictOutcome) (weather : WeatherResult) : ApiResponse :=
  match geo with
  | GeoResult.outOfBounds msg =>
    ApiResponse.err (build_error_response "gps_error" msg true)
  | GeoResult.ok taluk geo_confidence =>
    match features with
    | Except.error (FeatureError.invalidDate m) =>
      ApiResponse.err (build_error_response "date_error" m true)
    | Except.error (FeatureError.insufficientData m) =>
      ApiResponse.err (build_error_response "data_error" m true)
    | Except.ok _ =>
      match prediction with
      | PredictOutcome.runtimeError _ =>
        ApiResponse.err (build_error_response "system_error" "Prediction system error" true)
      | PredictOutcome.ok ml_category confidences uncertainty_data =>
        let lrs :=
          match weather with
          | WeatherResult.success r i => (r, i, "success")
          | WeatherResult.failure _ => ((50 : ℚ), (0 : ℚ), "estimated")
        ApiResponse.ok
          (build_farmer_response ml_category lrs.1 taluk geo_confidence
            confidences uncertainty_data lrs.2.1)
          ⟨if lrs.2.2 = "success" then "live" else "historical_estimate",
           geo_confidence⟩

/-!
## Theorems
-/

/-- C1: for every category, calibrated probability map, 7-day forecast
volume `f` and peak hourly intensity `i`, the decision engine (the
flash-flood intensity check of `build_farmer_response` followed by
`generate_alert`) returns exactly the first matching rule of the
ordered ladder: `i > 15` gives (CRITICAL, FLASH_FLOOD) regardless of
everything else; else `f > 100` gives (CRITICAL, FLOOD); else
`f > 60` gives (HIGH, FLOOD) whatever the category; else Deficit
splits on `f < 5` / `5 ≤ f < 15` / `15 ≤ f` into (HIGH, DROUGHT),
(MEDIUM, DROUGHT), (LOW, DROUGHT_RELIEF); else Excess with `f ≤ 60`
gives (LOW, WET_NORMAL); else (LOW, NORMAL). -/
theorem farmerAlert_ladder (cat : Category) (probs : Probs) (f i : ℚ) :
    (i > 15 → (farmerAlert cat probs f i).severity = "CRITICAL" ∧
      (farmerAlert cat probs f i).type = "FLASH_FLOOD") ∧
    (i ≤ 15 → f > 100 → (farmerAlert cat probs f i).severity = "CRITICAL" ∧
      (farmerAlert cat probs f i).type = "FLOOD") ∧
    (i ≤ 15 → f ≤ 100 → f > 60 → (farmerAlert cat probs f i).severity = "HIGH" ∧
      (farmerAlert cat probs f i).type = "FLOOD") ∧
    (i ≤ 15 → f ≤ 60 → cat = Category.Deficit → f < 5 →
      (farmerAlert cat probs f i).severity = "HIGH" ∧
      (farmerAlert cat probs f i).type = "DROUGHT") ∧
    (i ≤ 15 → f ≤ 60 → cat = Category.Deficit → 5 ≤ f → f < 15 →
      (farmerAlert cat probs f i).severity = "MEDIUM" ∧
      (farmerAlert cat probs f i).type = "DROUGHT") ∧
    (i ≤ 15 → f ≤ 60 → cat = Category.Deficit → 15 ≤ f →
      (farmerAlert cat probs f i).severity = "LOW" ∧
      (farmerAlert cat probs f i).type = "DROUGHT_RELIEF") ∧
    (i ≤ 15 → f ≤ 60 → cat = Category.Excess →
      (farmerAlert cat probs f i).severity = "LOW" ∧
      (farmerAlert cat probs f i).type = "WET_NORMAL") ∧
    (i ≤ 15 → f ≤ 60 → cat = Category.Normal →
      (farmerAlert cat probs f i).severity = "LOW" ∧
      (farmerAlert cat probs f i).type = "NORMAL") := by
  refine ⟨fun hi => ?_, fun hi hf => ?_, fun hi h100 hf => ?_,
          fun hi hf hc h5 => ?_, fun hi hf hc h5 h15 => ?_,
          fun hi hf hc h15 => ?_, fun hi hf hc => ?_, fun hi hf hc => ?_⟩
  · simp only [farmerAlert]
    rw [if_pos hi]
    exact ⟨rfl, rfl⟩
  · simp only [farmerAlert, generate_alert]
    rw [if_neg (not_lt.mpr hi), if_pos hf]
    exact ⟨rfl, rfl⟩
  · simp only [farmerAlert, generate_alert]
    rw [if_neg (not_lt.mpr hi), if_neg (not_lt.mpr h100), if_pos hf]
    exact ⟨rfl, rfl⟩
  · subst hc
    simp only [farmerAlert, generate_alert]
    rw [if_neg (not_lt.mpr hi), if_neg (not_lt.mpr (by linarith : f ≤ 100)),
        if_neg (not_lt.mpr hf), if_pos trivial, if_pos h5]
    exact ⟨rfl, rfl⟩
  · subst hc
    simp only [farmerAlert, generate_alert]
    rw [if_neg (not_lt.mpr hi), if_neg (not_lt.mpr (by linarith : f ≤ 100)),
        if_neg (not_lt.mpr hf), if_pos trivial, if_neg (not_lt.mpr h5), if_pos h15]
    exact ⟨rfl, rfl⟩
  · subst hc
    simp only [farmerAlert, generate_alert]
    rw [if_neg (not_lt.mpr hi), if_neg (not_lt.mpr (by linarith : f ≤ 100)),
        if_neg (not_lt.mpr hf), if_pos trivial, if_neg (not_lt.mpr (by linarith : 5 ≤ f)),
        if_neg (not_lt.mpr h15)]
    exact ⟨rfl, rfl⟩
  · subst hc
    simp only [farmerAlert, generate_alert]
    rw [if_neg (not_lt.mpr hi), if_neg (not_lt.mpr (by linarith : f ≤ 100)),
        if_neg (not_lt.mpr hf), if_neg (by simp), if_pos ⟨trivial, hf⟩]
    exact ⟨rfl, rfl⟩
  · subst hc
    simp only [farmerAlert, generate_alert]
    rw [if_neg (not_lt.mpr hi), if_neg (not_lt.mpr (by linarith : f ≤ 100)),
        if_neg (not_lt.mpr hf), if_neg (by simp), if_neg (by simp)]
    exact ⟨rfl, rfl⟩

/-- C1 witness: at intensity 20 mm/hr the flash-flood override fires. -/
theorem farmerAlert_ladder_witness :
    ((20 : ℚ) > 15) ∧
    (farmerAlert Category.Normal ⟨0, 1, 0⟩ 40 20).severity = "CRITICAL" ∧
    (farmerAlert Category.Normal ⟨0, 1, 0⟩ 40 20).type = "FLASH_FLOOD" := by
  have h := (farmerAlert_ladder Category.Normal ⟨0, 1, 0⟩ 40 20).1 (by norm_num)
  exact ⟨by norm_num, h.1, h.2⟩

/-- C9: `generate_alert` never reads its second parameter (the
calibrated probabilities slot), so any two values there give
identical alerts — severity, type and message bodies included. -/
theorem generate_alert_ignores_probs {α β : Type} (x : α) (y : β)
    (cat : Category) (f : ℚ) :
    generate_alert cat x f = generate_alert cat y f :=
  rfl

/-- C7: when the live weather call fails, the pipeline still returns a
success response, built from the conservative fallback of 50.0 mm /
0.0 mm/hr, and the `data_sources.weather_forecast` field is marked as
an estimate rather than `"live"`. -/
theorem process_weather_fallback (t gc : String) (fv : Features)
    (cat : Category) (conf : Probs) (unc : Option UncertaintyResult)
    (msg : String) :
    process_advisory_request (GeoResult.ok t gc) (Except.ok fv)
        (PredictOutcome.ok cat conf unc) (WeatherResult.failure msg) =
      ApiResponse.ok (build_farmer_response cat 50 t gc conf unc 0)
        ⟨"historical_estimate", gc⟩ ∧
    ∀ er, process_advisory_request (GeoResult.ok t gc) (Except.ok fv)
        (PredictOutcome.ok cat conf unc) (WeatherResult.failure msg) ≠
      ApiResponse.err er := by
  have h1 : process_advisory_request (GeoResult.ok t gc) (Except.ok fv)
      (PredictOutcome.ok cat conf unc) (WeatherResult.failure msg) =
      ApiResponse.ok (build_farmer_response cat 50 t gc conf unc 0)
        ⟨"historical_estimate", gc⟩ := by
    simp [process_advisory_request]
  refine ⟨h1, fun er hcontra => ?_⟩
  rw [h1] at hcontra
  exact ApiResponse.noConfusion hcontra

/-- C7 witness: a concrete failed-weather request. -/
theorem process_weather_fallback_witness :
    process_advisory_request (GeoResult.ok "udupi" "high")
        (Except.ok ⟨0, 0, 0, 0, 0, 0, 0, 0, 0, 0, 0, 0⟩)
        (PredictOutcome.ok Category.Normal ⟨0, 1, 0⟩ none)
        (WeatherResult.failure "Weather service timeout") =
      ApiResponse.ok
        (build_farmer_response Category.Normal 50 "udupi" "high" ⟨0, 1, 0⟩ none 0)
        ⟨"historical_estimate", "high"⟩ :=
  (process_weather_fallback "udupi" "high" ⟨0, 0, 0, 0, 0, 0, 0, 0, 0, 0, 0, 0⟩
    Category.Normal ⟨0, 1, 0⟩ none "Weather service timeout").1

/-- C10: with the `UncertaintyQuantifier` unavailable, `predict`
always fails with the wrapped `RuntimeError` (its fallback branch
reads the never-assigned names `category` and `confidence_dict`);
a prediction is produced exactly when the quantifier is present. -/
theorem predict_requires_quantifier (f : Features) (tk : Option String) :
    predict none f tk =
      PredictOutcome.runtimeError "ML prediction error: name 'category' is not defined" ∧
    ∀ q : UncertaintyQuantifier, ∃ cat conf unc,
      predict (some q) f tk = PredictOutcome.ok cat conf unc :=
  ⟨rfl, fun _ => ⟨_, _, _, rfl⟩⟩

/-- The result distribution of `calibrate_prediction` is the
renormalized distribution or one of its two Normal-swaps. -/
theorem calibrate_prediction_snd_cases (raw : Probs) :
    (calibrate_prediction raw).2 = calibrated_distribution raw ∨
    (calibrate_prediction raw).2 =
      ⟨(calibrated_distribution raw).normal, (calibrated_distribution raw).deficit,
       (calibrated_distribution raw).excess⟩ ∨
    (calibrate_prediction raw).2 =
      ⟨(calibrated_distribution raw).deficit, (calibrated_distribution raw).excess,
       (calibrated_distribution raw).normal⟩ := by
  unfold calibrate_prediction
  dsimp only
  repeat' split
  all_goals first | (left; rfl) | (right; left; rfl) | (right; right; rfl)

/-- C4: for raw probabilities with non-negative values and positive
total after the scaling steps, the calibrated distribution returned
by `calibrate_prediction` has every value in [0,1] and the three
values sum to 1.0 within a tolerance of 0.01 (the tie-break swap only
permutes values). -/
theorem calibrate_prediction_prob_invariant (raw : Probs)
    (hd : 0 ≤ raw.deficit) (hn : 0 ≤ raw.normal) (he : 0 ≤ raw.excess)
    (hpos : 0 < scaledTotal raw) :
    (0 ≤ (calibrate_prediction raw).2.deficit ∧ (calibrate_prediction raw).2.deficit ≤ 1) ∧
    (0 ≤ (calibrate_prediction raw).2.normal ∧ (calibrate_prediction raw).2.normal ≤ 1) ∧
    (0 ≤ (calibrate_prediction raw).2.excess ∧ (calibrate_prediction raw).2.excess ≤ 1) ∧
    |(calibrate_prediction raw).2.deficit + (calibrate_prediction raw).2.normal +
      (calibrate_prediction raw).2.excess - 1| ≤ 0.01 := by
  have hsd : 0 ≤ (scaledProbs raw).deficit := by
    unfold scaledProbs
    dsimp only
    split_ifs <;> nlinarith
  have hsn : 0 ≤ (scaledProbs raw).normal := by
    unfold scaledProbs
    dsimp only
    split_ifs <;> nlinarith
  have hse : 0 ≤ (scaledProbs raw).excess := by
    unfold scaledProbs
    dsimp only
    split_ifs <;> nlinarith
  have htotal : (scaledProbs raw).deficit + (scaledProbs raw).normal +
      (scaledProbs raw).excess = scaledTotal raw := rfl
  have hc : calibrated_distribution raw =
      ⟨(scaledProbs raw).deficit / scaledTotal raw,
       (scaledProbs raw).normal / scaledTotal raw,
       (scaledProbs raw).excess / scaledTotal raw⟩ := rfl
  have hd0 : 0 ≤ (calibrated_distribution raw).deficit := by
    rw [hc]; exact div_nonneg hsd hpos.le
  have hn0 : 0 ≤ (calibrated_distribution raw).normal := by
    rw [hc]; exact div_nonneg hsn hpos.le
  have he0 : 0 ≤ (calibrated_distribution raw).excess := by
    rw [hc]; exact div_nonneg hse hpos.le
  have hd1 : (calibrated_distribution raw).deficit ≤ 1 := by
    rw [hc]
    exact (div_le_one hpos).mpr (by linarith [htotal])
  have hn1 : (calibrated_distribution raw).normal ≤ 1 := by
    rw [hc]
    exact (div_le_one hpos).mpr (by linarith [htotal])
  have he1 : (calibrated_distribution raw).excess ≤ 1 := by
    rw [hc]
    exact (div_le_one hpos).mpr (by linarith [htotal])
  have hsum : (calibrated_distribution raw).deficit + (calibrated_distribution raw).normal +
      (calibrated_distribution raw).excess = 1 := by
    rw [hc]
    show (scaledProbs raw).deficit / scaledTotal raw + (scaledProbs raw).normal / scaledTotal raw +
      (scaledProbs raw).excess / scaledTotal raw = 1
    rw [div_add_div_same, div_add_div_same, htotal, div_self hpos.ne']
  rcases calibrate_prediction_snd_cases raw with h | h | h <;> rw [h] <;>
    refine ⟨⟨?_, ?_⟩, ⟨?_, ?_⟩, ⟨?_, ?_⟩, ?_⟩ <;>
    (try dsimp only) <;>
    first
      | assumption
      | (rw [abs_le]; constructor <;> nlinarith [hsum])

/-- C4 witness: a concrete raw distribution. -/
theorem calibrate_prediction_prob_invariant_witness :
    (0 ≤ (0.3 : ℚ)) ∧ (0 ≤ (0.5 : ℚ)) ∧ (0 ≤ (0.2 : ℚ)) ∧
    (0 < scaledTotal ⟨0.3, 0.5, 0.2⟩) ∧
    (0 ≤ (calibrate_prediction ⟨0.3, 0.5, 0.2⟩).2.deficit ∧
      (calibrate_prediction ⟨0.3, 0.5, 0.2⟩).2.deficit ≤ 1) ∧
    |(calibrate_prediction ⟨0.3, 0.5, 0.2⟩).2.deficit +
      (calibrate_prediction ⟨0.3, 0.5, 0.2⟩).2.normal +
      (calibrate_prediction ⟨0.3, 0.5, 0.2⟩).2.excess - 1| ≤ 0.01 := by
  have hpos : 0 < scaledTotal ⟨0.3, 0.5, 0.2⟩ := by
    norm_num [scaledTotal, scaledProbs]
  have h := calibrate_prediction_prob_invariant ⟨0.3, 0.5, 0.2⟩
    (by norm_num) (by norm_num) (by norm_num) hpos
  exact ⟨by norm_num, by norm_num, by norm_num, hpos, h.1, h.2.2.2⟩

/-- C3 counterexample: at raw probabilities
`{Deficit: 0.35, Normal: 0.63, Excess: 0.02}` the calibrated arg-max
is Normal, the runner-up is the extreme class Deficit, and the margin
is below 0.1 — yet the code keeps Normal as winner (its calibrated
score is not below 0.5), not the Deficit demanded by the claim. -/
theorem calibrate_tiebreak_counterexample :
    ((calibrated_distribution ⟨0.35, 0.63, 0.02⟩).normal >
      (calibrated_distribution ⟨0.35, 0.63, 0.02⟩).deficit) ∧
    ((calibrated_distribution ⟨0.35, 0.63, 0.02⟩).deficit >
      (calibrated_distribution ⟨0.35, 0.63, 0.02⟩).excess) ∧
    ((calibrated_distribution ⟨0.35, 0.63, 0.02⟩).normal -
      (calibrated_distribution ⟨0.35, 0.63, 0.02⟩).deficit < 0.1) ∧
    (calibrate_prediction ⟨0.35, 0.63, 0.02⟩).1 = Category.Normal ∧
    (calibrate_prediction ⟨0.35, 0.63, 0.02⟩).1 ≠ Category.Deficit := by
  norm_num [calibrate_prediction, calibrated_distribution, scaledProbs,
    List.insertionSort, List.orderedInsert]
  decide

/-- C3 amended: `calibrate_prediction` scales, renormalizes and picks
the stable arg-max as winner, except that when the arg-max is Normal,
Normal's calibrated score is below 0.5, the runner-up is an extreme
class and Normal's margin over it is below 0.1, the extreme runner-up
is returned instead. -/
theorem calibrate_winner_characterization (raw : Probs) :
    ((calibrated_distribution raw).deficit ≥ (calibrated_distribution raw).normal →
      (calibrated_distribution raw).deficit ≥ (calibrated_distribution raw).excess →
      (calibrate_prediction raw).1 = Category.Deficit) ∧
    ((calibrated_distribution raw).excess > (calibrated_distribution raw).deficit →
      (calibrated_distribution raw).excess > (calibrated_distribution raw).normal →
      (calibrate_prediction raw).1 = Category.Excess) ∧
    ((calibrated_distribution raw).normal > (calibrated_distribution raw).deficit →
      (calibrated_distribution raw).normal ≥ (calibrated_distribution raw).excess →
      (calibrated_distribution raw).normal < 0.5 →
      (calibrated_distribution raw).normal -
        max (calibrated_distribution raw).deficit (calibrated_distribution raw).excess < 0.1 →
      (calibrate_prediction raw).1 =
        (if (calibrated_distribution raw).excess > (calibrated_distribution raw).deficit
         then Category.Excess else Category.Deficit)) ∧
    ((calibrated_distribution raw).normal > (calibrated_distribution raw).deficit →
      (calibrated_distribution raw).normal ≥ (calibrated_distribution raw).excess →
      (0.5 ≤ (calibrated_distribution raw).normal ∨
        0.1 ≤ (calibrated_distribution raw).normal -
          max (calibrated_distribution raw).deficit (calibrated_distribution raw).excess) →
      (calibrate_prediction raw).1 = Category.Normal) := by
  simp only [calibrate_prediction, List.insertionSort, List.orderedInsert]
  generalize calibrated_distribution raw = c
  refine ⟨fun h1 h2 => ?_, fun h1 h2 => ?_, fun h1 h2 h3 h4 => ?_, fun h1 h2 h3 => ?_⟩
  · -- Deficit is a (stable) maximum: it heads the sorted list
    replace h1 : c.normal ≤ c.deficit := h1
    replace h2 : c.excess ≤ c.deficit := h2
    rcases le_or_lt c.excess c.normal with hA | hA
    · simp only [List.orderedInsert, if_pos hA, if_pos h1]
      simp
    · simp only [List.orderedInsert, if_neg (not_le.mpr hA), if_pos h2]
      simp
  · -- Excess is the strict maximum
    replace h1 : c.deficit < c.excess := h1
    replace h2 : c.normal < c.excess := h2
    rcases le_or_lt c.normal c.deficit with hB | hB
    · simp only [List.orderedInsert, if_neg (not_le.mpr h2), if_neg (not_le.mpr h1), if_pos hB]
      simp
    · simp only [List.orderedInsert, if_neg (not_le.mpr h2), if_neg (not_le.mpr h1), if_neg (not_le.mpr hB)]
      simp
  · -- Normal heads the list but the swap fires
    replace h1 : c.deficit < c.normal := h1
    replace h2 : c.excess ≤ c.normal := h2
    rcases le_or_lt c.excess c.deficit with hde | hde
    · rw [max_eq_left hde] at h4
      have hgt : ¬ c.excess > c.deficit := not_lt.mpr hde
      rw [if_neg hgt]
      simp only [List.orderedInsert, if_pos h2, if_neg (not_le.mpr h1), if_pos hde]
      simp [h3, h4]
    · rw [max_eq_right hde.le] at h4
      have hgt : c.excess > c.deficit := hde
      rw [if_pos hgt]
      simp only [List.orderedInsert, if_pos h2, if_neg (not_le.mpr h1), if_neg (not_le.mpr hde)]
      simp [h3, h4]
  · -- Normal heads the list and the swap does not fire
    replace h1 : c.deficit < c.normal := h1
    replace h2 : c.excess ≤ c.normal := h2
    rcases le_or_lt c.excess c.deficit with hde | hde
    · rw [max_eq_left hde] at h3
      simp only [List.orderedInsert, if_pos h2, if_neg (not_le.mpr h1), if_pos hde]
      rcases h3 with h3 | h3
      · simp [not_lt.mpr h3]
      · by_cases h5 : c.normal < 0.5
        · simp [h5, not_lt.mpr h3]
        · simp [h5]
    · rw [max_eq_right hde.le] at h3
      simp only [List.orderedInsert, if_pos h2, if_neg (not_le.mpr h1), if_neg (not_le.mpr hde)]
      rcases h3 with h3 | h3
      · simp [not_lt.mpr h3]
      · by_cases h5 : c.normal < 0.5
        · simp [h5, not_lt.mpr h3]
        · simp [h5]

/-- C3 witness: the spec's regression case
`{Normal: 0.45, Deficit: 0.35, Excess: 0.20}` yields winner Deficit. -/
theorem calibrate_winner_characterization_witness :
    ((calibrated_distribution ⟨0.35, 0.45, 0.2⟩).deficit ≥
      (calibrated_distribution ⟨0.35, 0.45, 0.2⟩).normal) ∧
    ((calibrated_distribution ⟨0.35, 0.45, 0.2⟩).deficit ≥
      (calibrated_distribution ⟨0.35, 0.45, 0.2⟩).excess) ∧
    (calibrate_prediction ⟨0.35, 0.45, 0.2⟩).1 = Category.Deficit := by
  have h1 : (calibrated_distribution ⟨0.35, 0.45, 0.2⟩).deficit ≥
      (calibrated_distribution ⟨0.35, 0.45, 0.2⟩).normal := by
    norm_num [calibrated_distribution, scaledProbs]
  have h2 : (calibrated_distribution ⟨0.35, 0.45, 0.2⟩).deficit ≥
      (calibrated_distribution ⟨0.35, 0.45, 0.2⟩).excess := by
    norm_num [calibrated_distribution, scaledProbs]
  exact ⟨h1, h2, (calibrate_winner_characterization ⟨0.35, 0.45, 0.2⟩).1 h1 h2⟩

/-- Agreement on a filter implies agreement on any refining filter. -/
theorem filter_eq_of_filter_eq {α : Type} {p q : α → Bool}
    (himp : ∀ a, q a = true → p a = true) {l₁ l₂ : List α}
    (h : l₁.filter p = l₂.filter p) : l₁.filter q = l₂.filter q := by
  have hq : (fun a => q a && p a) = q := by
    funext a
    cases hqa : q a
    · simp
    · simp [himp a hqa]
  have key : ∀ l : List α, l.filter q = (l.filter p).filter q := by
    intro l
    rw [List.filter_filter, hq]
  rw [key l₁, key l₂, h]

/-- The historical same-month mask refines the strictly-before mask. -/
theorem histMonthPred_implies_rain (t : String) (ref : Date) (r : RainRecord)
    (h : histMonthPred t ref r = true) : rainRowPred t ref r = true := by
  unfold histMonthPred at h
  unfold rainRowPred
  simp only [Bool.and_eq_true, decide_eq_true_eq, beq_iff_eq] at h ⊢
  obtain ⟨⟨htaluk, _⟩, hyear⟩ := h
  refine ⟨htaluk, ?_⟩
  unfold Date.ltb
  rw [if_pos (ne_of_lt hyear)]
  simp [hyear]

/-- C2: the feature vector depends only on the rainfall rows dated
strictly before the reference date and the weather rows dated at or
before it: datasets agreeing on those filtered rows yield identical
results, and appending a rainfall row dated at/after the reference
date or a weather row dated strictly after it changes nothing. -/
theorem compute_features_temporal_causality
    (taluk : String) (ref_dt minDate maxDate : Date)
    (R₁ R₂ : List RainRecord) (W₁ W₂ : List WeatherRecord)
    (hR : R₁.filter (rainRowPred taluk ref_dt) = R₂.filter (rainRowPred taluk ref_dt))
    (hW : W₁.filter (weatherRowPred taluk ref_dt) = W₂.filter (weatherRowPred taluk ref_dt)) :
    compute_features R₁ W₁ minDate maxDate taluk ref_dt =
      compute_features R₂ W₂ minDate maxDate taluk ref_dt ∧
    (∀ r : RainRecord, Date.ltb r.date ref_dt = false →
      compute_features (R₁ ++ [r]) W₁ minDate maxDate taluk ref_dt =
        compute_features R₁ W₁ minDate maxDate taluk ref_dt) ∧
    (∀ w : WeatherRecord, Date.leb w.date ref_dt = false →
      compute_features R₁ (W₁ ++ [w]) minDate maxDate taluk ref_dt =
        compute_features R₁ W₁ minDate maxDate taluk ref_dt) := by
  have main : ∀ (Ra Rb : List RainRecord) (Wa Wb : List WeatherRecord),
      Ra.filter (rainRowPred taluk ref_dt) = Rb.filter (rainRowPred taluk ref_dt) →
      Wa.filter (weatherRowPred taluk ref_dt) = Wb.filter (weatherRowPred taluk ref_dt) →
      compute_features Ra Wa minDate maxDate taluk ref_dt =
        compute_features Rb Wb minDate maxDate taluk ref_dt := by
    intro Ra Rb Wa Wb hr hw
    have hhist : Ra.filter (histMonthPred taluk ref_dt) =
        Rb.filter (histMonthPred taluk ref_dt) :=
      filter_eq_of_filter_eq (fun a ha => histMonthPred_implies_rain taluk ref_dt a ha) hr
    simp only [compute_features, _get_rainfall_data, _get_weather_data]
    rw [hr, hw, hhist]
  refine ⟨main R₁ R₂ W₁ W₂ hR hW, fun r hr => ?_, fun w hw => ?_⟩
  · apply main
    · have hpred : rainRowPred taluk ref_dt r = false := by
        unfold rainRowPred
        rw [hr]
        simp
      rw [List.filter_append]
      simp [hpred]
    · rfl
  · apply main
    · rfl
    · have hpred : weatherRowPred taluk ref_dt w = false := by
        unfold weatherRowPred
        rw [hw]
        simp
      rw [List.filter_append]
      simp [hpred]

/-- C2 witness: adding a future rainfall row leaves the (here
insufficient-data) result unchanged. -/
theorem compute_features_temporal_causality_witness :
    (List.filter (rainRowPred "udupi" ⟨2025, 6, 1⟩) [] =
      List.filter (rainRowPred "udupi" ⟨2025, 6, 1⟩)
        [{ taluk := "udupi", date := ⟨2025, 7, 1⟩, rainfall := 5 }]) ∧
    (List.filter (weatherRowPred "udupi" ⟨2025, 6, 1⟩) [] =
      List.filter (weatherRowPred "udupi" ⟨2025, 6, 1⟩) []) ∧
    compute_features [] [] ⟨2015, 1, 1⟩ ⟨2026, 1, 1⟩ "udupi" ⟨2025, 6, 1⟩ =
      compute_features [{ taluk := "udupi", date := ⟨2025, 7, 1⟩, rainfall := 5 }] []
        ⟨2015, 1, 1⟩ ⟨2026, 1, 1⟩ "udupi" ⟨2025, 6, 1⟩ := by
  have h := compute_features_temporal_causality "udupi" ⟨2025, 6, 1⟩
    ⟨2015, 1, 1⟩ ⟨2026, 1, 1⟩ []
    [{ taluk := "udupi", date := ⟨2025, 7, 1⟩, rainfall := 5 }] [] []
    (by decide) rfl
  exact ⟨by decide, rfl, h.1⟩

/-- C5: within the allowed date window, `compute_features` fails with
`InsufficientDataError` when fewer than 30 prior rainfall rows exist,
fails likewise when no weather row exists at/before the reference
date, and succeeds with exactly 30 prior rainfall rows and at least
one weather row. -/
theorem compute_features_insufficient_boundary
    (R : List RainRecord) (W : List WeatherRecord) (minDate maxDate : Date)
    (taluk : String) (ref_dt : Date)
    (hmax : Date.ltb maxDate ref_dt = false)
    (hmin : Date.ltb ref_dt minDate = false) :
    ((R.filter (rainRowPred taluk ref_dt)).length < 30 →
      compute_features R W minDate maxDate taluk ref_dt =
        Except.error (FeatureError.insufficientData
          ("Not enough historical data for " ++ taluk ++
            ". Need at least 30 days of past data."))) ∧
    (30 ≤ (R.filter (rainRowPred taluk ref_dt)).length →
      W.filter (weatherRowPred taluk ref_dt) = [] →
      compute_features R W minDate maxDate taluk ref_dt =
        Except.error (FeatureError.insufficientData
          ("No weather data available for " ++ taluk))) ∧
    ((R.filter (rainRowPred taluk ref_dt)).length = 30 →
      W.filter (weatherRowPred taluk ref_dt) ≠ [] →
      ∃ fv : Features, compute_features R W minDate maxDate taluk ref_dt =
        Except.ok fv) := by
  refine ⟨fun hlt => ?_, fun hge hwe => ?_, fun heq hwne => ?_⟩
  · simp [compute_features, _get_rainfall_data, sortRainByDate, hmax, hmin,
      List.length_insertionSort, hlt]
  · simp [compute_features, _get_rainfall_data, _get_weather_data,
      sortRainByDate, sortWeatherByDate, hmax, hmin,
      List.length_insertionSort, not_lt.mpr hge, hwe]
  · simp only [compute_features, _get_rainfall_data, _get_weather_data,
      sortRainByDate, sortWeatherByDate, hmax, hmin]
    rw [if_neg (by simp), if_neg (by simp)]
    rw [if_neg (by simp [List.length_insertionSort, heq])]
    rw [if_neg (by simp [List.length_insertionSort, List.length_eq_zero, hwne])]
    exact ⟨_, rfl⟩

/-- C5 witness: 29 prior rows fail, 30 prior rows succeed. -/
theorem compute_features_insufficient_boundary_witness :
    (Date.ltb ⟨2026, 1, 1⟩ ⟨2025, 6, 1⟩ = false) ∧
    (Date.ltb ⟨2025, 6, 1⟩ ⟨2015, 1, 1⟩ = false) ∧
    compute_features
        ((List.range 29).map (fun i =>
          { taluk := "udupi", date := ⟨2025, 5, i + 1⟩, rainfall := 3 }))
        [{ taluk := "udupi", date := ⟨2025, 5, 1⟩, temp := 25, humidity := 60,
           wind := 10, pressure := 1010 }]
        ⟨2015, 1, 1⟩ ⟨2026, 1, 1⟩ "udupi" ⟨2025, 6, 1⟩ =
      Except.error (FeatureError.insufficientData
        "Not enough historical data for udupi. Need at least 30 days of past data.") ∧
    ∃ fv : Features, compute_features
        ((List.range 30).map (fun i =>
          { taluk := "udupi", date := ⟨2025, 5, i + 1⟩, rainfall := 3 }))
        [{ taluk := "udupi", date := ⟨2025, 5, 1⟩, temp := 25, humidity := 60,
           wind := 10, pressure := 1010 }]
        ⟨2015, 1, 1⟩ ⟨2026, 1, 1⟩ "udupi" ⟨2025, 6, 1⟩ = Except.ok fv := by
  have h29 := (compute_features_insufficient_boundary
    ((List.range 29).map (fun i =>
      { taluk := "udupi", date := ⟨2025, 5, i + 1⟩, rainfall := 3 }))
    [{ taluk := "udupi", date := ⟨2025, 5, 1⟩, temp := 25, humidity := 60,
       wind := 10, pressure := 1010 }]
    ⟨2015, 1, 1⟩ ⟨2026, 1, 1⟩ "udupi" ⟨2025, 6, 1⟩ (by decide) (by decide)).1
    (by decide)
  have h30 := (compute_features_insufficient_boundary
    ((List.range 30).map (fun i =>
      { taluk := "udupi", date := ⟨2025, 5, i + 1⟩, rainfall := 3 }))
    [{ taluk := "udupi", date := ⟨2025, 5, 1⟩, temp := 25, humidity := 60,
       wind := 10, pressure := 1010 }]
    ⟨2015, 1, 1⟩ ⟨2026, 1, 1⟩ "udupi" ⟨2025, 6, 1⟩ (by decide) (by decide)).2.2
    (by decide) (by decide)
  exact ⟨by decide, by decide, h29, h30⟩

/-- The loop step never increases the running minimum, and its result
is at most the new candidate distance. -/
theorem nearestStep_fst_le (dist : ℚ → ℚ → ℚ → ℚ → ℝ) (lat lon : ℚ)
    (acc : WithTop ℝ × Option String) (r : Region) :
    (nearestStep dist lat lon acc r).1 ≤ acc.1 ∧
    (nearestStep dist lat lon acc r).1 ≤
      ((dist lat lon r.center_lat r.center_lon : ℝ) : WithTop ℝ) := by
  unfold nearestStep
  dsimp only
  split_ifs with h
  · exact ⟨le_of_lt h, le_refl _⟩
  · exact ⟨le_refl _, not_lt.mp h⟩

/-- The nearest-taluk fold computes a lower bound of all candidate
distances (and of the initial accumulator). -/
theorem scanFold_le (dist : ℚ → ℚ → ℚ → ℚ → ℝ) (lat lon : ℚ)
    (l : List Region) : ∀ acc : WithTop ℝ × Option String,
    (l.foldl (nearestStep dist lat lon) acc).1 ≤ acc.1 ∧
    ∀ r ∈ l, (l.foldl (nearestStep dist lat lon) acc).1 ≤
      ((dist lat lon r.center_lat r.center_lon : ℝ) : WithTop ℝ) := by
  induction l with
  | nil =>
    intro acc
    exact ⟨le_refl _, by simp⟩
  | cons a l ih =>
    intro acc
    have hstep := nearestStep_fst_le dist lat lon acc a
    have h := ih (nearestStep dist lat lon acc a)
    rw [List.foldl_cons]
    refine ⟨le_trans h.1 hstep.1, fun r hr => ?_⟩
    rcases List.mem_cons.mp hr with rfl | hr
    · exact le_trans h.1 hstep.2
    · exact h.2 r hr

/-- The nearest-taluk fold either keeps the accumulator or lands on
some region's distance paired with that region's lowercased name. -/
theorem scanFold_shape (dist : ℚ → ℚ → ℚ → ℚ → ℝ) (lat lon : ℚ)
    (l : List Region) : ∀ acc : WithTop ℝ × Option String,
    l.foldl (nearestStep dist lat lon) acc = acc ∨
    ∃ r ∈ l, l.foldl (nearestStep dist lat lon) acc =
      (((dist lat lon r.center_lat r.center_lon : ℝ) : WithTop ℝ),
        some (pyLower r.name)) := by
  induction l with
  | nil =>
    intro acc
    exact Or.inl rfl
  | cons a l ih =>
    intro acc
    rw [List.foldl_cons]
    rcases ih (nearestStep dist lat lon acc a) with h | ⟨r, hr, h⟩
    · by_cases hd : ((dist lat lon a.center_lat a.center_lon : ℝ) : WithTop ℝ) < acc.1
      · refine Or.inr ⟨a, List.mem_cons_self a l, ?_⟩
        rw [h]
        unfold nearestStep
        dsimp only
        rw [if_pos hd]
      · refine Or.inl ?_
        rw [h]
        unfold nearestStep
        dsimp only
        rw [if_neg hd]
    · exact Or.inr ⟨r, List.mem_cons_of_mem a hr, h⟩

/-- C6: inside the operating box, `get_taluk` returns the first
bbox-containing region with confidence high (edges inclusive);
otherwise it minimizes the haversine distance to the region centers,
rejecting when every center is over 30 km away and otherwise
returning a minimizing region with confidence medium below 15 km and
low from 15 km up to 30 km. -/
theorem get_taluk_resolution (boundaries : List Region) (lat lon : ℚ)
    (hop : 12.5 ≤ lat ∧ lat ≤ 14.5 ∧ 74.4 ≤ lon ∧ lon ≤ 75.3) :
    (∀ r, boundaries.find? (fun r => bboxContains r lat lon) = some r →
      TalukMapper_get_taluk boundaries lat lon =
        GeoResult.ok (pyLower r.name) "high") ∧
    (boundaries.find? (fun r => bboxContains r lat lon) = none →
      (∀ r ∈ boundaries, (30 : ℝ) < havDist lat lon r.center_lat r.center_lon) →
      TalukMapper_get_taluk boundaries lat lon = GeoResult.outOfBounds
        "Location too far from any known taluk. Please check your location or contact support.") ∧
    (boundaries.find? (fun r => bboxContains r lat lon) = none →
      ¬(((30 : ℝ) : WithTop ℝ) < (scanNearest havDist lat lon boundaries).1) →
      ∃ r ∈ boundaries,
        ((havDist lat lon r.center_lat r.center_lon : ℝ) : WithTop ℝ) =
          (scanNearest havDist lat lon boundaries).1 ∧
        (∀ r' ∈ boundaries, (scanNearest havDist lat lon boundaries).1 ≤
          ((havDist lat lon r'.center_lat r'.center_lon : ℝ) : WithTop ℝ)) ∧
        TalukMapper_get_taluk boundaries lat lon =
          GeoResult.ok (pyLower r.name)
            (if (scanNearest havDist lat lon boundaries).1 < ((15 : ℝ) : WithTop ℝ)
             then "medium" else "low")) := by
  obtain ⟨h1, h2, h3, h4⟩ := hop
  have hvalid : ¬(¬((-90 : ℚ) ≤ lat ∧ lat ≤ 90) ∨ ¬((-180 : ℚ) ≤ lon ∧ lon ≤ 180)) := by
    push_neg
    exact ⟨⟨by linarith, by linarith⟩, ⟨by linarith, by linarith⟩⟩
  have hdistrict : ¬(¬((12.5 : ℚ) ≤ lat ∧ lat ≤ 14.5) ∨ ¬((74.4 : ℚ) ≤ lon ∧ lon ≤ 75.3)) := by
    push_neg
    exact ⟨⟨h1, h2⟩, ⟨h3, h4⟩⟩
  refine ⟨fun r hfind => ?_, fun hfind hfar => ?_, fun hfind hnear => ?_⟩
  · unfold TalukMapper_get_taluk get_taluk
    rw [if_neg hvalid, if_neg hdistrict, hfind]
  · unfold TalukMapper_get_taluk get_taluk
    rw [if_neg hvalid, if_neg hdistrict, hfind]
    dsimp only
    rw [if_pos ?hgt]
    case hgt =>
      rcases scanFold_shape havDist lat lon boundaries (⊤, none) with h | ⟨r, hr, h⟩
      · have hs : scanNearest havDist lat lon boundaries = (⊤, none) := h
        rw [hs]
        exact WithTop.coe_lt_top (30 : ℝ)
      · have hs : scanNearest havDist lat lon boundaries =
            (((havDist lat lon r.center_lat r.center_lon : ℝ) : WithTop ℝ),
              some (pyLower r.name)) := h
        rw [hs]
        dsimp only
        exact WithTop.coe_lt_coe.mpr (hfar r hr)
  · have hle := scanFold_le havDist lat lon boundaries (⊤, none)
    rcases scanFold_shape havDist lat lon boundaries (⊤, none) with h | ⟨r, hr, h⟩
    · exfalso
      apply hnear
      have hs : scanNearest havDist lat lon boundaries = (⊤, none) := h
      rw [hs]
      exact WithTop.coe_lt_top (30 : ℝ)
    · have hs : scanNearest havDist lat lon boundaries =
          (((havDist lat lon r.center_lat r.center_lon : ℝ) : WithTop ℝ),
            some (pyLower r.name)) := h
      refine ⟨r, hr, ?_, ?_, ?_⟩
      · rw [hs]
      · intro r' hr'
        exact hle.2 r' hr'
      · unfold TalukMapper_get_taluk get_taluk
        rw [if_neg hvalid, if_neg hdistrict, hfind]
        dsimp only
        rw [if_neg hnear, hs]
        rfl

/-- C6 witness: a point exactly on a region's bbox edge resolves to
that region with confidence high. -/
theorem get_taluk_resolution_witness :
    ((12.5 : ℚ) ≤ 13 ∧ (13 : ℚ) ≤ 14.5 ∧ (74.4 : ℚ) ≤ 75 ∧ (75 : ℚ) ≤ 75.3) ∧
    TalukMapper_get_taluk
        [{ name := "Udupi", bbox := ⟨13, 74, 14, 75⟩,
           center_lat := 13, center_lon := 74 }] 13 75 =
      GeoResult.ok "udupi" "high" := by
  have hop : (12.5 : ℚ) ≤ 13 ∧ (13 : ℚ) ≤ 14.5 ∧ (74.4 : ℚ) ≤ 75 ∧ (75 : ℚ) ≤ 75.3 := by
    norm_num
  have hfind : List.find? (fun r => bboxContains r 13 75)
      [{ name := "Udupi", bbox := ⟨13, 74, 14, 75⟩,
         center_lat := 13, center_lon := 74 }] =
      some { name := "Udupi", bbox := ⟨13, 74, 14, 75⟩,
             center_lat := 13, center_lon := 74 } := by
    decide
  have h := (get_taluk_resolution
    [{ name := "Udupi", bbox := ⟨13, 74, 14, 75⟩,
       center_lat := 13, center_lon := 74 }] 13 75 hop).1 _ hfind
  refine ⟨hop, ?_⟩
  rw [h]
  rfl

/-- `np.argmax` over three values yields an index attaining the
maximum. -/
theorem argmax3_le (m : Fin 3 → ℚ) (j : Fin 3) : m j ≤ m (argmax3 m) := by
  unfold argmax3
  split_ifs with h1 h2
  · fin_cases j
    · exact le_refl _
    · exact h1.1
    · exact h1.2
  · push_neg at h1
    fin_cases j
    · rcases lt_or_le (m 0) (m 1) with hlt | hle
      · exact hlt.le
      · exact le_trans (h1 hle).le h2
    · exact le_refl _
    · exact h2
  · push_neg at h1
    push_neg at h2
    fin_cases j
    · rcases lt_or_le (m 0) (m 1) with hlt | hle
      · exact le_trans hlt.le h2.le
      · exact (h1 hle).le
    · exact h2.le
    · exact le_refl _

/-- `np.clip(x, 0, 1)` lands in `[0, 1]`. -/
theorem clip01_mem (x : ℝ) : 0 ≤ clip01 x ∧ clip01 x ≤ 1 := by
  unfold clip01
  constructor
  · exact le_min (le_max_right x 0) zero_le_one
  · exact min_le_right _ 1

/-- C8: `get_prediction_with_uncertainty` uses the available ensemble
members (district model alone, or district plus the matching taluk
model); the reported category is an arg-max of the mean distribution
and is determined by the mean alone (intervals never change it); the
90% bounds equal `clip(mean ± 1.645·std)` (reported on the 0-100
scale, hence within [0, 100]); and the uncertainty level is LOW below
a mean std of 5 on the 0-100 scale, MEDIUM below 10, HIGH otherwise. -/
theorem get_prediction_uncertainty_report (uq : UncertaintyQuantifier)
    (features : List ℚ) (taluk : Option String) :
    let r := get_prediction_with_uncertainty uq features taluk
    let m := ensembleMean uq features taluk
    let s := ensembleStd uq features taluk
    (ensembleMembers uq features taluk = [uq.district_model.predict_proba features] ∨
      ∃ t fm, taluk = some t ∧ uq.taluk_models.lookup t = some fm ∧
        ensembleMembers uq features taluk =
          [uq.district_model.predict_proba features, fm.predict_proba features]) ∧
    (∃ i : Fin 3, r.prediction.category = catOfIdx i ∧ ∀ j : Fin 3, m j ≤ m i) ∧
    (∀ (uq' : UncertaintyQuantifier) (features' : List ℚ) (taluk' : Option String),
      ensembleMean uq' features' taluk' = m →
      (get_prediction_with_uncertainty uq' features' taluk').prediction.category =
        r.prediction.category) ∧
    (r.prediction_intervals.deficit.lower_90 =
        clip01 ((m 0 : ℝ) - 1.645 * s 0) * 100 ∧
      r.prediction_intervals.deficit.upper_90 =
        clip01 ((m 0 : ℝ) + 1.645 * s 0) * 100 ∧
      r.prediction_intervals.normal.lower_90 =
        clip01 ((m 1 : ℝ) - 1.645 * s 1) * 100 ∧
      r.prediction_intervals.normal.upper_90 =
        clip01 ((m 1 : ℝ) + 1.645 * s 1) * 100 ∧
      r.prediction_intervals.excess.lower_90 =
        clip01 ((m 2 : ℝ) - 1.645 * s 2) * 100 ∧
      r.prediction_intervals.excess.upper_90 =
        clip01 ((m 2 : ℝ) + 1.645 * s 2) * 100 ∧
      (0 ≤ r.prediction_intervals.deficit.lower_90 ∧
        r.prediction_intervals.deficit.lower_90 ≤ 100) ∧
      (0 ≤ r.prediction_intervals.deficit.upper_90 ∧
        r.prediction_intervals.deficit.upper_90 ≤ 100) ∧
      (0 ≤ r.prediction_intervals.normal.lower_90 ∧
        r.prediction_intervals.normal.lower_90 ≤ 100) ∧
      (0 ≤ r.prediction_intervals.normal.upper_90 ∧
        r.prediction_intervals.normal.upper_90 ≤ 100) ∧
      (0 ≤ r.prediction_intervals.excess.lower_90 ∧
        r.prediction_intervals.excess.lower_90 ≤ 100) ∧
      (0 ≤ r.prediction_intervals.excess.upper_90 ∧
        r.prediction_intervals.excess.upper_90 ≤ 100)) ∧
    ((r.uncertainty.level = "LOW" ↔ ensembleAvgStd uq features taluk < 5) ∧
      (r.uncertainty.level = "MEDIUM" ↔
        5 ≤ ensembleAvgStd uq features taluk ∧ ensembleAvgStd uq features taluk < 10) ∧
      (r.uncertainty.level = "HIGH" ↔ 10 ≤ ensembleAvgStd uq features taluk)) := by
  intro r m s
  have hbound : ∀ x : ℝ, 0 ≤ clip01 x * 100 ∧ clip01 x * 100 ≤ 100 := by
    intro x
    obtain ⟨hx0, hx1⟩ := clip01_mem x
    constructor <;> nlinarith
  refine ⟨?_, ?_, ?_, ?_, ?_⟩
  · unfold ensembleMembers
    cases taluk with
    | none => exact Or.inl rfl
    | some t =>
      dsimp only
      split_ifs with hcond
      · obtain ⟨_, _, hsome⟩ := hcond
        obtain ⟨fm, hfm⟩ := Option.isSome_iff_exists.mp hsome
        refine Or.inr ⟨t, fm, rfl, hfm, ?_⟩
        rw [hfm]
        rfl
      · exact Or.inl rfl
  · refine ⟨argmax3 m, rfl, fun j => argmax3_le m j⟩
  · intro uq' features' taluk' hmean
    show catOfIdx (argmax3 (ensembleMean uq' features' taluk')) =
      catOfIdx (argmax3 m)
    rw [hmean]
  · exact ⟨rfl, rfl, rfl, rfl, rfl, rfl, hbound _, hbound _, hbound _,
      hbound _, hbound _, hbound _⟩
  · have hlv : r.uncertainty.level =
        (if ensembleAvgStd uq features taluk < 5 then ("LOW", "Models agree strongly")
         else if ensembleAvgStd uq features taluk < 10 then ("MEDIUM", "Models mostly agree")
         else ("HIGH", "Models disagree - monitor forecast")).1 := rfl
    rw [hlv]
    split_ifs with h5 h10
    · exact ⟨iff_of_true (by decide) h5,
        iff_of_false (by decide) (fun hcon => absurd hcon.1 (not_le.mpr h5)),
        iff_of_false (by decide) (not_le.mpr (lt_trans h5 (by norm_num)))⟩
    · exact ⟨iff_of_false (by decide) h5,
        iff_of_true (by decide) ⟨not_lt.mp h5, h10⟩,
        iff_of_false (by decide) (not_le.mpr h10)⟩
    · exact ⟨iff_of_false (by decide) h5,
        iff_of_false (by decide) (fun hcon => absurd hcon.2 h10),
        iff_of_true (by decide) (not_lt.mp h10)⟩

/-- C8 witness: a single-member ensemble has zero std, so the level is
LOW. -/
theorem get_prediction_uncertainty_report_witness :
    ensembleAvgStd ⟨⟨fun _ _ => 0⟩, []⟩ [] none < 5 ∧
    (get_prediction_with_uncertainty ⟨⟨fun _ _ => 0⟩, []⟩ [] none).uncertainty.level =
      "LOW" := by
  have hvar : ∀ i : Fin 3, ensembleVar ⟨⟨fun _ _ => 0⟩, []⟩ [] none i = 0 := by
    intro i
    simp [ensembleVar, ensembleMean, ensembleMembers]
  have hstd : ∀ i : Fin 3, ensembleStd ⟨⟨fun _ _ => 0⟩, []⟩ [] none i = 0 := by
    intro i
    unfold ensembleStd
    rw [hvar i]
    simp
  have h5 : ensembleAvgStd ⟨⟨fun _ _ => 0⟩, []⟩ [] none < 5 := by
    unfold ensembleAvgStd
    rw [hstd 0, hstd 1, hstd 2]
    norm_num
  exact ⟨h5,
    ((get_prediction_uncertainty_report ⟨⟨fun _ _ => 0⟩, []⟩ [] none).2.2.2.2.1).mpr h5⟩

end RainfallAdvisory
